import Mathlib

/-!
# mtblox: counters, peripheral health details and the brief health verdict

A shallow embedding of `libs/metrics/counter.go`, `libs/metrics/peripheral.go`,
`libs/mtsrv/mtstatus.go`, the metric registry of `libs/mtsrv/mtsrv.go` and
`libs/mtsrv/mtstats.go`, and the construction of the worker pool of
`srvs/helloworld/drona.go`.

Conventions of the embedding
* Go `uint64` is a `Nat` below `2 ^ 64`, Go `int64` an `Int` in
  `[-2 ^ 63, 2 ^ 63)`; every arithmetic operation of the source is followed by
  the wrap-around the machine performs.
* A Go pointer is an `Option`; dereferencing `none` is the run-time panic
  `GoResult.panic`.
* A Go `(value, error)` return is a `GoResult`: `ok v` for `(v, nil)`,
  `err msg` for `(nil, error)`.
* The atomic operations of `sync/atomic` are modelled by their sequential
  meaning; a mutex is free between the calls of a sequential history.
* What the operating system, the Go runtime and the libraries answer (clock,
  process table, process queries, string encoders) is an input of the function
  that asks.
* Calls to the logger `mtlog` return nothing and do not influence control flow;
  they are not part of the embedding.
-/

namespace Mtblox

/-! ## Machine integers -/

/-- Conversion `int64(x)` of a Go `uint64`: the two's complement reading. -/
def toInt64 (n : Nat) : Int :=
  if n % 2 ^ 64 < 2 ^ 63 then ((n % 2 ^ 64 : Nat) : Int) else ((n % 2 ^ 64 : Nat) : Int) - 2 ^ 64

/-- Wrap an integer into the `int64` range. -/
def wrapInt64 (i : Int) : Int :=
  (i + 2 ^ 63) % 2 ^ 64 - 2 ^ 63

/-- Saturate an integer into the `int64` range (as `time.Time.Sub` does). -/
def clampInt64 (i : Int) : Int :=
  if i < -(2 ^ 63) then -(2 ^ 63) else if 2 ^ 63 - 1 < i then 2 ^ 63 - 1 else i

/-- Go's `a / b` on `int64`: `none` is the panic "integer divide by zero";
otherwise the quotient truncated toward zero, wrapped (`MinInt64 / -1`). -/
def int64Div (a b : Int) : Option Int :=
  if b = 0 then none else some (wrapInt64 (Int.tdiv a b))

/-- A `Nat` that is a value of Go's `uint64`. -/
def IsU64 (n : Nat) : Prop := n < 2 ^ 64

instance (n : Nat) : Decidable (IsU64 n) := by
  unfold IsU64; exact inferInstance

/-- An `Int` that is a value of Go's `int64`. -/
def IsI64 (i : Int) : Prop := -(2 ^ 63) ≤ i ∧ i < 2 ^ 63

instance (i : Int) : Decidable (IsI64 i) := by
  unfold IsI64; exact inferInstance

/-- Outcome of a Go function returning `(*T, error)` that may also panic. -/
inductive GoResult (α : Type) where
  | ok (v : α)
  | err (msg : String)
  | panic
deriving DecidableEq, Repr

/-- Outcome of a library query returning `(T, error)`. -/
inductive Fallible (α : Type) where
  | ok (v : α)
  | err (msg : String)
deriving DecidableEq, Repr

/-! ## `libs/metrics/counter.go` -/

/-- The struct `Zcounter`; the zero value is the fresh counter. -/
structure Zcounter where
  label : String := ""
  x : Nat := 0
deriving DecidableEq, Repr

namespace Zcounter

/-- `atomic.AddUint64(&zc.x, 1)`. -/
def Inc (zc : Zcounter) : Zcounter :=
  { zc with x := (zc.x + 1) % 2 ^ 64 }

/-- `atomic.AddUint64(&zc.x, deltaX)`. -/
def Add (zc : Zcounter) (deltaX : Nat) : Zcounter :=
  { zc with x := (zc.x + deltaX) % 2 ^ 64 }

/-- `atomic.StoreUint64(&zc.x, baseV)`. -/
def Set (zc : Zcounter) (baseV : Nat) : Zcounter :=
  { zc with x := baseV }

/-- `atomic.StoreUint64(&zc.x, 0)`. -/
def Reset (zc : Zcounter) : Zcounter :=
  { zc with x := 0 }

/-- `atomic.LoadUint64(&zc.x)`. -/
def Value (zc : Zcounter) : Nat :=
  zc.x

/-- `zc.label = l`. -/
def Label (zc : Zcounter) (l : String) : Zcounter :=
  { zc with label := l }

/-- `return zc.label`. -/
def Name (zc : Zcounter) : String :=
  zc.label

end Zcounter

/-- One call of a value-mutating method of `Zcounter`. -/
inductive CounterOp where
  | set (v : Nat)
  | add (d : Nat)
  | inc
  | reset
deriving DecidableEq, Repr

/-- The arguments of the call are `uint64` values. -/
def CounterOp.WellTyped : CounterOp → Prop
  | .set v => IsU64 v
  | .add d => IsU64 d
  | .inc => True
  | .reset => True

instance (op : CounterOp) : Decidable op.WellTyped := by
  cases op <;> unfold CounterOp.WellTyped <;> exact inferInstance

/-- Perform the method call on the counter. -/
def CounterOp.call (zc : Zcounter) : CounterOp → Zcounter
  | .set v => zc.Set v
  | .add d => zc.Add d
  | .inc => zc.Inc
  | .reset => zc.Reset

/-- Perform the calls one after another, the head of the list first. -/
def runOps (zc : Zcounter) : List CounterOp → Zcounter
  | [] => zc
  | op :: rest => runOps (op.call zc) rest

/-- The arithmetic meaning of one operation on a 64-bit unsigned value, as the
specification words it. -/
def specStep (value : Nat) : CounterOp → Nat
  | .set v => v
  | .add d => (value + d) % 2 ^ 64
  | .inc => (value + 1) % 2 ^ 64
  | .reset => 0

/-- The specification's fold of a history of operations over 0. -/
def specValue (ops : List CounterOp) : Nat :=
  List.foldl specStep 0 ops

/-! ## Time, errors -/

/-- A `time.Time`, in nanoseconds after the zero time (January 1, year 1, UTC). -/
abbrev Time := Int

/-- The part of the run-time environment the detail builders read: the wall
clock and the standard library's rendering of a `time.Duration`. -/
structure TimeEnv where
  now : Time
  durationString : Int → String

/-- `time.Since(t)`: the elapsed nanoseconds, saturated to `int64`. -/
def TimeEnv.since (env : TimeEnv) (t : Time) : Int :=
  clampInt64 (env.now - t)

/-- `time.Time{}.String()`. -/
def zeroTimeString : String := "0001-01-01 00:00:00 +0000 UTC"

/-- A Go `error` value: `none` is `nil`, `some msg` an error whose `Error()` is `msg`. -/
abbrev GoError := Option String

/-! ## `libs/metrics/peripheral.go` -/

/-- The struct `DatabaseHealthStat`. -/
structure DatabaseHealthStat where
  DatabaseName : String := ""
  MicroserviceName : String := ""
  TotalReadOp : Nat := 0
  TotalWriteOp : Nat := 0
  TotalUnsuccessfulReadOp : Nat := 0
  TotalUnsuccessfulWriteOp : Nat := 0
  TotalLatencyReadOp : Int := 0
  TotalLatencyWriteOp : Int := 0
  InitializationTime : Time := 0
  Status : Int := 0
  UpTime : String := ""
  IsConnected : Bool := false
  Error : GoError := none
deriving DecidableEq, Repr

/-- The struct `TransportHealthStat`. -/
structure TransportHealthStat where
  TransportName : String := ""
  TotalRx : Zcounter := {}
  TotalRxErr : Zcounter := {}
  TotalTx : Zcounter := {}
  TotalTxErr : Zcounter := {}
  TotalRxInOneInterval : Zcounter := {}
  TotalRxErrInOneInterval : Zcounter := {}
  TotalTxInOneInterval : Zcounter := {}
  TotalTxErrInOneInterval : Zcounter := {}
  TotalTimeToSendMsgsInOneInterval : Int := 0
  TotalTimeToReceiveMsgsInOneInterval : Int := 0
  StartReceiveTime : Time := 0
  InitializationTime : Time := 0
  Status : Int := 0
  UpTime : String := ""
  IsConnected : Bool := false
  Error : GoError := none
deriving DecidableEq, Repr

/-- The struct `SecurityStackHealthStat`. -/
structure SecurityStackHealthStat where
  SecuritySrvsName : String := ""
  TotalSuccessfulEncryption : Zcounter := {}
  TotalSuccessfulDecryption : Zcounter := {}
  TotalUnsuccessfulEncryption : Zcounter := {}
  TotalUnsuccessfulDecryption : Zcounter := {}
  InitializationTime : Time := 0
  Status : Int := 0
  UpTime : String := ""
  IsConnected : Bool := false
  Error : GoError := none
deriving DecidableEq, Repr

/-- The numeric fields of a `DatabaseHealthStat` hold values of their Go types. -/
def DatabaseHealthStat.WellTyped (s : DatabaseHealthStat) : Prop :=
  IsU64 s.TotalReadOp ∧ IsU64 s.TotalWriteOp ∧
  IsU64 s.TotalUnsuccessfulReadOp ∧ IsU64 s.TotalUnsuccessfulWriteOp ∧
  IsI64 s.TotalLatencyReadOp ∧ IsI64 s.TotalLatencyWriteOp

instance (s : DatabaseHealthStat) : Decidable s.WellTyped := by
  unfold DatabaseHealthStat.WellTyped; exact inferInstance

/-- The numeric fields of a `TransportHealthStat` hold values of their Go types. -/
def TransportHealthStat.WellTyped (s : TransportHealthStat) : Prop :=
  IsU64 s.TotalRx.x ∧ IsU64 s.TotalRxErr.x ∧ IsU64 s.TotalTx.x ∧ IsU64 s.TotalTxErr.x ∧
  IsU64 s.TotalRxInOneInterval.x ∧ IsU64 s.TotalRxErrInOneInterval.x ∧
  IsU64 s.TotalTxInOneInterval.x ∧ IsU64 s.TotalTxErrInOneInterval.x ∧
  IsI64 s.TotalTimeToSendMsgsInOneInterval ∧ IsI64 s.TotalTimeToReceiveMsgsInOneInterval

instance (s : TransportHealthStat) : Decidable s.WellTyped := by
  unfold TransportHealthStat.WellTyped; exact inferInstance

/-- The numeric fields of a `SecurityStackHealthStat` hold values of their Go types. -/
def SecurityStackHealthStat.WellTyped (s : SecurityStackHealthStat) : Prop :=
  IsU64 s.TotalSuccessfulEncryption.x ∧ IsU64 s.TotalSuccessfulDecryption.x ∧
  IsU64 s.TotalUnsuccessfulEncryption.x ∧ IsU64 s.TotalUnsuccessfulDecryption.x

instance (s : SecurityStackHealthStat) : Decidable s.WellTyped := by
  unfold SecurityStackHealthStat.WellTyped; exact inferInstance

/-! ## `libs/mtsrv/mtstatus.go`: types -/

/-- The Go type `SrvHealthStatusType` (an `int`). -/
abbrev SrvHealthStatusType := Int

abbrev ServiceHealthStatus_HEALTH_UNK : SrvHealthStatusType := 0
abbrev ServiceHealthStatus_HEALTH_RED : SrvHealthStatusType := 1
abbrev ServiceHealthStatus_HEALTH_YELLOW : SrvHealthStatusType := 2
abbrev ServiceHealthStatus_HEALTH_GREEN : SrvHealthStatusType := 3

/-- The Go type `PeripheralStatusType` (an `int`). -/
abbrev PeripheralStatusType := Int

abbrev FAILED : PeripheralStatusType := 0
abbrev CONNECTED : PeripheralStatusType := 1
abbrev CONNECTING : PeripheralStatusType := 2

/-- The constant `HEALTH_SEND_INTERVAL`. -/
def HEALTH_SEND_INTERVAL : String := "per min"

/-- An IEEE-754 value, kept as its bit pattern: the code only copies such values. -/
abbrev FloatBits := Nat

/-- The struct `TransportBlockStatusDetail`. -/
structure TransportBlockStatusDetail where
  Name : String := ""
  Status : PeripheralStatusType := 0
  UpTime : String := ""
  TotalRequests : Nat := 0
  TotalResponse : Nat := 0
  TotalRequestsInOneInterval : Nat := 0
  TotalResponseInOneInterval : Nat := 0
  RequestRate : String := ""
  ResponseRate : String := ""
  AvgTimeToServeRequests : Int := 0
  AvgTimeToServeResponse : Int := 0
  TotalSuccessfulRequests : Nat := 0
  TotalUnsuccessfulRequests : Nat := 0
  TotalSuccessfulResponse : Nat := 0
  TotalUnsuccessfulResponse : Nat := 0
  TotalSuccessfulRequestsInOneInterval : Nat := 0
  TotalUnsuccessfulRequestsInOneInterval : Nat := 0
  TotalSuccessfulResponseInOneInterval : Nat := 0
  TotalUnsuccessfulResponseInOneInterval : Nat := 0
  Error : String := ""
deriving DecidableEq, Repr

/-- The struct `PersistenceStatusDetail`. -/
structure PersistenceStatusDetail where
  Name : String := ""
  Status : PeripheralStatusType := 0
  NonLocalIp : String := ""
  UpTime : String := ""
  TotalReadOperations : Nat := 0
  TotalWriteOperations : Nat := 0
  RequestRate : String := ""
  AvgExecutionTimeOfReadOperations : Int := 0
  AvgExecutionTimeOfWriteOperations : Int := 0
  TotalUnsuccessfulReadOperations : Nat := 0
  TotalUnsuccessfulWriteOperations : Nat := 0
  Error : String := ""
deriving DecidableEq, Repr

/-- The struct `SecurityStackDetail`. -/
structure SecurityStackDetail where
  Name : String := ""
  Status : PeripheralStatusType := 0
  UpTime : String := ""
  TotalSuccessfulEncryption : Nat := 0
  TotalSuccessfulDecryption : Nat := 0
  TotalUnsuccessfulEncryption : Nat := 0
  TotalUnsuccessfulDecryption : Nat := 0
  Error : String := ""
deriving DecidableEq, Repr

/-- The struct `PageFaultDetail`. -/
structure PageFaultDetail where
  MinorFaults : Nat := 0
  MajorFaults : Nat := 0
  ChildMinorFaults : Nat := 0
  ChildMajorFaults : Nat := 0
deriving DecidableEq, Repr

/-- The struct `IOCounterStatDetail`. -/
structure IOCounterStatDetail where
  ReadCount : Nat := 0
  WriteCount : Nat := 0
  ReadBytes : Nat := 0
  WriteBytes : Nat := 0
deriving DecidableEq, Repr

/-- The struct `CpuStatDetail`. -/
structure CpuStatDetail where
  CpuPercent : FloatBits := 0
  User : FloatBits := 0
  System : FloatBits := 0
deriving DecidableEq, Repr

/-- The struct `MemoryStatDetail`. -/
structure MemoryStatDetail where
  MemPercent : FloatBits := 0
  Alloc : Nat := 0
  TotalAlloc : Nat := 0
  Sys : Nat := 0
  Mallocs : Nat := 0
  Frees : Nat := 0
  HeapSys : Nat := 0
  HeapIdle : Nat := 0
  NextGC : Nat := 0
  LastGC : Nat := 0
  PauseTotalNs : Nat := 0
  NumGC : Nat := 0
deriving DecidableEq, Repr

/-- The struct `NetworkStatDetail`. -/
structure NetworkStatDetail where
  InterfaceName : String := ""
  RxPackets : Nat := 0
  RxBytes : Nat := 0
  TxPackets : Nat := 0
  TxBytes : Nat := 0
  RxErrors : Nat := 0
  TxErrors : Nat := 0
  RxDropped : Nat := 0
  TxDropped : Nat := 0
  EndpointID : String := ""
  InstanceID : String := ""
deriving DecidableEq, Repr

/-- The struct `ProcessStats`. -/
structure ProcessStats where
  PageFaultStat : Option PageFaultDetail := none
  IOCounterStats : Option IOCounterStatDetail := none
  CpuStats : Option CpuStatDetail := none
  MemoryStat : Option MemoryStatDetail := none
  Network : List (Option NetworkStatDetail) := []
deriving DecidableEq, Repr

/-- The struct `RuntimeDetail`. -/
structure RuntimeDetail where
  NumOfGoRoutines : Int := 0
  NumOfCrashedGoRoutines : Int := 0
  NumOfCpu : Int := 0
deriving DecidableEq, Repr

/-- The struct `ProcessDetail`. -/
structure ProcessDetail where
  Id : Int := 0
  Name : String := ""
  UpTime : String := ""
  State : String := ""
  NumThreads : Int := 0
  Stats : Option ProcessStats := none
  Runtime : Option RuntimeDetail := none
deriving DecidableEq, Repr

/-- The struct `WebHooksList` (it has no fields). -/
structure WebHooksList where
deriving DecidableEq, Repr

/-- The struct `PeripheralList`. -/
structure PeripheralList where
  Databases : List (Option PersistenceStatusDetail) := []
  Transports : List (Option TransportBlockStatusDetail) := []
deriving DecidableEq, Repr

/-- The struct `DetailedStatusSummary`. -/
structure DetailedStatusSummary where
  ConnectedPeripheral : Option PeripheralList := none
  ProcessStatus : Option ProcessDetail := none
  Security : List (Option SecurityStackDetail) := []
  WebHooks : Option WebHooksList := none
deriving DecidableEq, Repr

/-- The struct `BriefStatusSummary`. -/
structure BriefStatusSummary where
  ServiceName : String := ""
  Status : SrvHealthStatusType := 0
deriving DecidableEq, Repr

/-- The struct `MtsrvStatus`. -/
structure MtsrvStatus where
  BriefStatus : Option BriefStatusSummary := none
  DetailedStatus : Option DetailedStatusSummary := none
deriving DecidableEq, Repr

/-- The struct `SrvsComponentComposition`. -/
structure SrvsComponentComposition where
  Databases : List (Option PersistenceStatusDetail) := []
  Transports : List (Option TransportBlockStatusDetail) := []
  SecurityStack : List (Option SecurityStackDetail) := []
  WebHooks : Option WebHooksList := none
deriving DecidableEq, Repr

/-- The results of gopsutil's `PageFaults()`. -/
structure PageFaultsStat where
  MinorFaults : Nat := 0
  MajorFaults : Nat := 0
  ChildMinorFaults : Nat := 0
  ChildMajorFaults : Nat := 0
deriving DecidableEq, Repr

/-- The results of gopsutil's `IOCounters()`. -/
structure IOCountersStat where
  ReadCount : Nat := 0
  WriteCount : Nat := 0
  ReadBytes : Nat := 0
  WriteBytes : Nat := 0
deriving DecidableEq, Repr

/-- The results of gopsutil's `Times()`, as far as the code reads them. -/
structure TimesStat where
  User : FloatBits := 0
  System : FloatBits := 0
deriving DecidableEq, Repr

/-- One entry of gopsutil's `NetIOCounters(true)`. -/
structure NetIOCountersStat where
  Name : String := ""
  BytesSent : Nat := 0
  BytesRecv : Nat := 0
  PacketsSent : Nat := 0
  PacketsRecv : Nat := 0
  Errin : Nat := 0
  Errout : Nat := 0
  Dropin : Nat := 0
  Dropout : Nat := 0
deriving DecidableEq, Repr

/-- A gopsutil process handle `*process.Process`, as the answers its queries
give at the time of the call. -/
structure Process where
  Pid : Int := 0
  Name : Fallible String := .ok ""
  Status : Fallible String := .ok ""
  NumThreads : Fallible Int := .ok 0
  PageFaults : Fallible PageFaultsStat := .ok {}
  IOCounters : Fallible IOCountersStat := .ok {}
  CPUPercent : Fallible FloatBits := .ok 0
  Times : Fallible TimesStat := .ok {}
  MemoryPercent : Fallible FloatBits := .ok 0
  NetIOCounters : List NetIOCountersStat × GoError := ([], none)
deriving DecidableEq, Repr

/-- The struct `Health`. -/
structure Health where
  name : String := ""
  startTime : Time := 0
  processCtx : Option Process := none
deriving DecidableEq, Repr

/-! ## `libs/mtsrv/mtstatus.go`: the detail builders -/

/-- Lines 308-326 of `TransportHealthDetail`: status, up time and error string. -/
def transportConnectivity (env : TimeEnv) (transportStat : TransportHealthStat)
    (transDetail : TransportBlockStatusDetail) : TransportBlockStatusDetail :=
  if transportStat.IsConnected then
    if transportStat.TotalTxErrInOneInterval.Value = 0 ∧
        transportStat.TotalRxErrInOneInterval.Value = 0 then
      { transDetail with
        Status := CONNECTED
        UpTime := env.durationString (env.since transportStat.InitializationTime) }
    else
      { transDetail with
        Status := CONNECTING
        UpTime := zeroTimeString
        Error := "TotalTx Err In One Interval Is " ++
          toString transportStat.TotalTxErrInOneInterval.Value ++
          ", TotalRx Err In One Interval Is " ++
          toString transportStat.TotalRxErrInOneInterval.Value ++ " " }
  else
    match transportStat.Error with
    | some msg => { transDetail with Status := FAILED, UpTime := zeroTimeString, Error := msg }
    | none => { transDetail with Status := FAILED, UpTime := zeroTimeString }

/-- Lines 328-345 of `TransportHealthDetail`: name, totals and rates. -/
def transportTotals (transportStat : TransportHealthStat)
    (transDetail : TransportBlockStatusDetail) : TransportBlockStatusDetail :=
  let totalSuccessfulRequests := transportStat.TotalTx.Value
  let totalUnsuccessfulRequests := transportStat.TotalTxErr.Value
  let totalSuccessfulResponse := transportStat.TotalRx.Value
  let totalUnsuccessfulResponse := transportStat.TotalRxErr.Value
  let totalSuccessfulRequestsInOneInterval := transportStat.TotalTxInOneInterval.Value
  let totalUnsuccessfulRequestsInOneInterval := transportStat.TotalTxErrInOneInterval.Value
  let totalSuccessfulResponseInOneInterval := transportStat.TotalRxInOneInterval.Value
  let totalUnsuccessfulResponseInOneInterval := transportStat.TotalRxErrInOneInterval.Value
  let totalRequestsInOneInterval :=
    (totalSuccessfulRequestsInOneInterval + totalUnsuccessfulRequestsInOneInterval) % 2 ^ 64
  let totalResponseInOneInterval :=
    (totalSuccessfulResponseInOneInterval + totalUnsuccessfulResponseInOneInterval) % 2 ^ 64
  { transDetail with
    Name := transportStat.TransportName
    TotalSuccessfulRequests := totalSuccessfulRequests
    TotalUnsuccessfulRequests := totalUnsuccessfulRequests
    TotalSuccessfulResponse := totalSuccessfulResponse
    TotalUnsuccessfulResponse := totalUnsuccessfulResponse
    TotalRequests := (totalSuccessfulRequests + totalUnsuccessfulRequests) % 2 ^ 64
    TotalResponse := (totalSuccessfulResponse + totalUnsuccessfulResponse) % 2 ^ 64
    TotalSuccessfulRequestsInOneInterval := totalSuccessfulRequestsInOneInterval
    TotalUnsuccessfulRequestsInOneInterval := totalUnsuccessfulRequestsInOneInterval
    TotalSuccessfulResponseInOneInterval := totalSuccessfulResponseInOneInterval
    TotalUnsuccessfulResponseInOneInterval := totalUnsuccessfulResponseInOneInterval
    TotalRequestsInOneInterval := totalRequestsInOneInterval
    TotalResponseInOneInterval := totalResponseInOneInterval
    RequestRate := toString totalRequestsInOneInterval ++ " " ++ HEALTH_SEND_INTERVAL
    ResponseRate := toString totalResponseInOneInterval ++ " " ++ HEALTH_SEND_INTERVAL }

/-- Lines 346-353 of `TransportHealthDetail`: the two guarded averages and the return. -/
def transportAverages (transportStat : TransportHealthStat)
    (transDetail : TransportBlockStatusDetail) : GoResult TransportBlockStatusDetail :=
  let avgRequests : Option Int :=
    if transDetail.TotalSuccessfulRequestsInOneInterval ≠ 0 then
      int64Div transportStat.TotalTimeToSendMsgsInOneInterval
        (toInt64 transDetail.TotalSuccessfulRequestsInOneInterval)
    else some transDetail.AvgTimeToServeRequests
  match avgRequests with
  | none => .panic
  | some avgReq =>
    let avgResponse : Option Int :=
      if transDetail.TotalSuccessfulResponseInOneInterval ≠ 0 then
        int64Div transportStat.TotalTimeToReceiveMsgsInOneInterval
          (toInt64 transDetail.TotalSuccessfulResponseInOneInterval)
      else some transDetail.AvgTimeToServeResponse
    match avgResponse with
    | none => .panic
    | some avgResp =>
      .ok { transDetail with AvgTimeToServeRequests := avgReq, AvgTimeToServeResponse := avgResp }

/-- The method `(*Health).TransportHealthDetail`. -/
def TransportHealthDetail (env : TimeEnv) (hCtx : Option Health)
    (transportStat : Option TransportHealthStat) : GoResult TransportBlockStatusDetail :=
  match hCtx with
  | none => .err "Health context is nil"
  | some _ =>
    match transportStat with
    | none => .panic
    | some transportStat =>
      transportAverages transportStat
        (transportTotals transportStat (transportConnectivity env transportStat {}))

/-- Lines 367-385 of `DatabaseHealthDetail`: status, up time and error string. -/
def databaseConnectivity (env : TimeEnv) (dbStat : DatabaseHealthStat)
    (dbDetail : PersistenceStatusDetail) : PersistenceStatusDetail :=
  if dbStat.IsConnected then
    if dbStat.TotalUnsuccessfulReadOp = 0 ∧ dbStat.TotalUnsuccessfulWriteOp = 0 then
      { dbDetail with
        UpTime := env.durationString (env.since dbStat.InitializationTime)
        Status := CONNECTED }
    else
      { dbDetail with
        UpTime := zeroTimeString
        Status := CONNECTING
        Error := "Total Unsuccessful Read Operation Is " ++
          toString dbStat.TotalUnsuccessfulReadOp ++
          ", Total Unsuccessful Write Operation Is " ++
          toString dbStat.TotalUnsuccessfulWriteOp ++ " " }
  else
    match dbStat.Error with
    | some msg => { dbDetail with UpTime := zeroTimeString, Status := FAILED, Error := msg }
    | none => { dbDetail with UpTime := zeroTimeString, Status := FAILED }

/-- Lines 387-395 of `DatabaseHealthDetail`: name, totals and rate. -/
def databaseTotals (dbStat : DatabaseHealthStat)
    (dbDetail : PersistenceStatusDetail) : PersistenceStatusDetail :=
  let totalOp := (dbStat.TotalReadOp + dbStat.TotalWriteOp) % 2 ^ 64
  { dbDetail with
    Name := dbStat.DatabaseName
    TotalReadOperations := dbStat.TotalReadOp
    TotalWriteOperations := dbStat.TotalWriteOp
    TotalUnsuccessfulReadOperations := dbStat.TotalUnsuccessfulReadOp
    TotalUnsuccessfulWriteOperations := dbStat.TotalUnsuccessfulWriteOp
    RequestRate := toString totalOp ++ " " ++ HEALTH_SEND_INTERVAL }

/-- Lines 396-403 of `DatabaseHealthDetail`: the two guarded averages and the return. -/
def databaseAverages (dbStat : DatabaseHealthStat)
    (dbDetail : PersistenceStatusDetail) : GoResult PersistenceStatusDetail :=
  let avgRead : Option Int :=
    if dbStat.TotalReadOp ≠ 0 then
      int64Div dbStat.TotalLatencyReadOp (toInt64 dbStat.TotalReadOp)
    else some dbDetail.AvgExecutionTimeOfReadOperations
  match avgRead with
  | none => .panic
  | some avgR =>
    let avgWrite : Option Int :=
      if dbStat.TotalWriteOp ≠ 0 then
        int64Div dbStat.TotalLatencyWriteOp (toInt64 dbStat.TotalWriteOp)
      else some dbDetail.AvgExecutionTimeOfWriteOperations
    match avgWrite with
    | none => .panic
    | some avgW =>
      .ok { dbDetail with
        AvgExecutionTimeOfReadOperations := avgR
        AvgExecutionTimeOfWriteOperations := avgW }

/-- The method `(*Health).DatabaseHealthDetail`. -/
def DatabaseHealthDetail (env : TimeEnv) (hCtx : Option Health)
    (dbStat : Option DatabaseHealthStat) : GoResult PersistenceStatusDetail :=
  match hCtx with
  | none => .err "Health context is nil"
  | some _ =>
    match dbStat with
    | none => .panic
    | some dbStat =>
      databaseAverages dbStat (databaseTotals dbStat (databaseConnectivity env dbStat {}))

/-- Lines 418-436 of `SecurityStackHealthDetail`: status, up time and error string. -/
def securityConnectivity (env : TimeEnv) (securityStat : SecurityStackHealthStat)
    (securityDetail : SecurityStackDetail) : SecurityStackDetail :=
  if securityStat.IsConnected then
    if securityStat.TotalUnsuccessfulEncryption.Value = 0 ∧
        securityStat.TotalUnsuccessfulDecryption.Value = 0 then
      { securityDetail with
        UpTime := env.durationString (env.since securityStat.InitializationTime)
        Status := CONNECTED }
    else
      { securityDetail with
        UpTime := zeroTimeString
        Status := CONNECTING
        Error := "Total Unsuccessful Encryption Operation Is " ++
          toString securityStat.TotalUnsuccessfulEncryption.Value ++
          ", Total Unsuccessful Decryption Operation Is " ++
          toString securityStat.TotalUnsuccessfulDecryption.Value ++ " " }
  else
    match securityStat.Error with
    | some msg =>
      { securityDetail with UpTime := zeroTimeString, Status := FAILED, Error := msg }
    | none => { securityDetail with UpTime := zeroTimeString, Status := FAILED }

/-- Lines 437-441 of `SecurityStackHealthDetail`: name and counters. -/
def securityTotals (securityStat : SecurityStackHealthStat)
    (securityDetail : SecurityStackDetail) : SecurityStackDetail :=
  { securityDetail with
    Name := securityStat.SecuritySrvsName
    TotalSuccessfulEncryption := securityStat.TotalSuccessfulEncryption.Value
    TotalSuccessfulDecryption := securityStat.TotalSuccessfulDecryption.Value
    TotalUnsuccessfulEncryption := securityStat.TotalUnsuccessfulEncryption.Value
    TotalUnsuccessfulDecryption := securityStat.TotalUnsuccessfulDecryption.Value }

/-- The method `(*Health).SecurityStackHealthDetail`. -/
def SecurityStackHealthDetail (env : TimeEnv) (hCtx : Option Health)
    (securityStat : Option SecurityStackHealthStat) : GoResult SecurityStackDetail :=
  match hCtx with
  | none => .err "Health context is nil"
  | some _ =>
    match securityStat with
    | none => .panic
    | some securityStat =>
      .ok (securityTotals securityStat (securityConnectivity env securityStat {}))

/-! ## `libs/mtsrv/mtstatus.go`: the brief verdict -/

/-- How a `for ... range` loop of `BriefSrvsStatus` ends: by the `return
briefStatus, nil` inside it, or by running through the whole list. -/
inductive Scan where
  | returned (briefStatus : BriefStatusSummary)
  | completed (briefStatus : BriefStatusSummary)
deriving DecidableEq, Repr

/-- The body shared by the three `for ... range` loops of `BriefSrvsStatus`; `status`
reads the `Status` field of an entry. -/
def scanPeripherals {α : Type} (status : α → PeripheralStatusType)
    (briefStatus : BriefStatusSummary) : List (Option α) → Scan
  | [] => .completed briefStatus
  | none :: rest => scanPeripherals status briefStatus rest
  | some p :: rest =>
    if status p = CONNECTED then
      scanPeripherals status { briefStatus with Status := ServiceHealthStatus_HEALTH_GREEN } rest
    else if status p = CONNECTING then
      .returned { briefStatus with Status := ServiceHealthStatus_HEALTH_YELLOW }
    else
      .returned { briefStatus with Status := ServiceHealthStatus_HEALTH_RED }

/-- The loop over `connPeripheral.Databases`, with its `len(...) != 0` guard. -/
def scanDatabases (briefStatus : BriefStatusSummary)
    (dbs : List (Option PersistenceStatusDetail)) : Scan :=
  if dbs.length ≠ 0 then scanPeripherals (fun db => db.Status) briefStatus dbs
  else .completed briefStatus

/-- The loop over `connPeripheral.Transports`, with its `len(...) != 0` guard. -/
def scanTransports (briefStatus : BriefStatusSummary)
    (transports : List (Option TransportBlockStatusDetail)) : Scan :=
  if transports.length ≠ 0 then scanPeripherals (fun trans => trans.Status) briefStatus transports
  else .completed briefStatus

/-- The loop over `detailedStatus.Security`, with its `len(...) != 0` guard. -/
def scanSecurity (briefStatus : BriefStatusSummary)
    (security : List (Option SecurityStackDetail)) : Scan :=
  if security.length ≠ 0 then scanPeripherals (fun sec => sec.Status) briefStatus security
  else .completed briefStatus

/-- The method `(*Health).BriefSrvsStatus`. -/
def BriefSrvsStatus (hCtx : Option Health) (srvsStat : Option MtsrvStatus) :
    GoResult BriefStatusSummary :=
  match hCtx with
  | none => .err "health context is nil"
  | some h =>
    let briefStatus : BriefStatusSummary := {}
    let briefStatus := { briefStatus with ServiceName := h.name }
    match srvsStat with
    | none => .panic
    | some srvsStat =>
      match srvsStat.DetailedStatus with
      | none => .err "DetailedStatus is nil"
      | some detailedStatus =>
        let peripherals : Scan :=
          match detailedStatus.ConnectedPeripheral with
          | none => .completed briefStatus
          | some connPeripheral =>
            match scanDatabases briefStatus connPeripheral.Databases with
            | .returned b => .returned b
            | .completed b => scanTransports b connPeripheral.Transports
        match peripherals with
        | .returned b => .ok b
        | .completed briefStatus =>
          match scanSecurity briefStatus detailedStatus.Security with
          | .returned b => .ok b
          | .completed briefStatus =>
            match detailedStatus.ProcessStatus with
            | none => .ok { briefStatus with Status := ServiceHealthStatus_HEALTH_RED }
            | some processStatus =>
              if processStatus.State = "T" ∨ processStatus.State = "I" ∨
                  processStatus.State = "W" ∨ processStatus.State = "Z" ∨
                  processStatus.State = "L" then
                .ok { briefStatus with Status := ServiceHealthStatus_HEALTH_RED }
              else
                .ok { briefStatus with Status := ServiceHealthStatus_HEALTH_GREEN }

/-! ## `libs/mtsrv/mtstatus.go`: the process probe -/

/-- The fields of `runtime.MemStats` the code reads. -/
structure MemStats where
  Alloc : Nat := 0
  TotalAlloc : Nat := 0
  Sys : Nat := 0
  Mallocs : Nat := 0
  Frees : Nat := 0
  HeapSys : Nat := 0
  HeapIdle : Nat := 0
  NextGC : Nat := 0
  LastGC : Nat := 0
  PauseTotalNs : Nat := 0
  NumGC : Nat := 0
deriving DecidableEq, Repr

/-- The answers of the Go runtime at the time of the call: `runtime.ReadMemStats`,
`runtime.NumGoroutine()` and `runtime.NumCPU()`. -/
structure RuntimeEnv where
  memStats : MemStats := {}
  numGoroutine : Int := 0
  numCPU : Int := 0
deriving DecidableEq, Repr

/-- Lines 566-575 of `ProcessDetail`: the page-fault detail `pFault`. -/
def pageFaultProbe (pCtx : Process) : PageFaultDetail :=
  let pFault : PageFaultDetail := {}
  match pCtx.PageFaults with
  | .err _ => pFault
  | .ok faults =>
    { pFault with
      MinorFaults := faults.MinorFaults
      MajorFaults := faults.MajorFaults
      ChildMinorFaults := faults.ChildMinorFaults
      ChildMajorFaults := faults.ChildMajorFaults }

/-- Lines 578-587 of `ProcessDetail`: the I/O counter detail `pioCounter`. -/
def ioCounterProbe (pCtx : Process) : IOCounterStatDetail :=
  let pioCounter : IOCounterStatDetail := {}
  match pCtx.IOCounters with
  | .err _ => pioCounter
  | .ok iocounters =>
    { pioCounter with
      ReadCount := iocounters.ReadCount
      WriteCount := iocounters.WriteCount
      ReadBytes := iocounters.ReadBytes
      WriteBytes := iocounters.WriteBytes }

/-- Lines 591-604 of `ProcessDetail`: the CPU detail `cpuStat`. -/
def cpuProbe (pCtx : Process) : CpuStatDetail :=
  let cpuStat : CpuStatDetail := {}
  let cpuStat :=
    match pCtx.CPUPercent with
    | .err _ => cpuStat
    | .ok cpuPercent => { cpuStat with CpuPercent := cpuPercent }
  match pCtx.Times with
  | .err _ => cpuStat
  | .ok cpuTime => { cpuStat with User := cpuTime.User, System := cpuTime.System }

/-- Lines 608-631 of `ProcessDetail`: the memory detail `memStat`. -/
def memoryProbe (rt : RuntimeEnv) (pCtx : Process) : MemoryStatDetail :=
  let memStat : MemoryStatDetail := {}
  let memStat :=
    match pCtx.MemoryPercent with
    | .err _ => memStat
    | .ok memPercent => { memStat with MemPercent := memPercent }
  let memRuntime := rt.memStats
  { memStat with
    Alloc := memRuntime.Alloc
    TotalAlloc := memRuntime.TotalAlloc
    Sys := memRuntime.Sys
    Mallocs := memRuntime.Mallocs
    Frees := memRuntime.Frees
    HeapSys := memRuntime.HeapSys
    HeapIdle := memRuntime.HeapIdle
    NextGC := memRuntime.NextGC
    LastGC := memRuntime.LastGC
    PauseTotalNs := memRuntime.PauseTotalNs
    NumGC := memRuntime.NumGC }

/-- Lines 641-650 of `ProcessDetail`: the detail built from one network entry. -/
def networkDetailOf (netioStat : NetIOCountersStat) : NetworkStatDetail :=
  { InterfaceName := netioStat.Name
    RxPackets := netioStat.PacketsRecv
    RxBytes := netioStat.BytesRecv
    TxPackets := netioStat.PacketsSent
    TxBytes := netioStat.BytesSent
    RxErrors := netioStat.Errin
    TxErrors := netioStat.Errout
    RxDropped := netioStat.Dropin
    TxDropped := netioStat.Dropout }

/-- Lines 636-653 of `ProcessDetail`: the loop over whatever list
`NetIOCounters(true)` returned (its error is logged only), appending to
`pStats.Network`. -/
def networkProbe (pCtx : Process) (network : List (Option NetworkStatDetail)) :
    List (Option NetworkStatDetail) :=
  pCtx.NetIOCounters.1.foldl (fun acc netioStat => acc ++ [some (networkDetailOf netioStat)])
    network

/-- Lines 544-663 of `ProcessDetail`: the detail built for a bound handle. -/
def probeProcess (env : TimeEnv) (rt : RuntimeEnv) (h : Health) (pCtx : Process) :
    ProcessDetail :=
  let processDetail : ProcessDetail :=
    { Id := pCtx.Pid, Name := h.name, UpTime := env.durationString (env.since h.startTime) }
  let processDetail :=
    match pCtx.Status with
    | .err _ => processDetail
    | .ok status => { processDetail with State := status }
  let processDetail :=
    match pCtx.NumThreads with
    | .err _ => processDetail
    | .ok noThreads => { processDetail with NumThreads := noThreads }
  let pStats : ProcessStats := {}
  -- `pFault` is filled in and then never stored in `pStats`
  let _pFault := pageFaultProbe pCtx
  let pStats := { pStats with IOCounterStats := some (ioCounterProbe pCtx) }
  let pStats := { pStats with CpuStats := some (cpuProbe pCtx) }
  let pStats := { pStats with MemoryStat := some (memoryProbe rt pCtx) }
  let pStats := { pStats with Network := networkProbe pCtx pStats.Network }
  let processDetail := { processDetail with Stats := some pStats }
  let runtimeDetail : RuntimeDetail := {}
  let runtimeDetail :=
    { runtimeDetail with NumOfGoRoutines := rt.numGoroutine, NumOfCpu := rt.numCPU }
  { processDetail with Runtime := some runtimeDetail }

/-- The method `(*Health).ProcessDetail`. A nil receiver is dereferenced by the
first statement, `pCtx := hCtx.processCtx`. -/
def Health.ProcessDetail (env : TimeEnv) (rt : RuntimeEnv) (hCtx : Option Health) :
    GoResult Mtblox.ProcessDetail :=
  match hCtx with
  | none => .panic
  | some h =>
    match h.processCtx with
    | none => .err "Process context is nil"
    | some pCtx => .ok (probeProcess env rt h pCtx)

/-! ## `libs/mtsrv/mtstatus.go`: the complete status -/

/-- Lines 279-292 of `CompleteSrvsStatus`: the brief status of the assembled
detailed summary, and the return. -/
def completeWithBrief (hCtx : Option Health) (srvsStatus : MtsrvStatus)
    (detailedSumm : DetailedStatusSummary) : GoResult MtsrvStatus :=
  let srvsStatus := { srvsStatus with DetailedStatus := some detailedSumm }
  match BriefSrvsStatus hCtx (some srvsStatus) with
  | .panic => .panic
  | .err bErr => .err bErr
  | .ok briefSrvsStatus => .ok { srvsStatus with BriefStatus := some briefSrvsStatus }

/-- The method `(*Health).CompleteSrvsStatus`. -/
def CompleteSrvsStatus (env : TimeEnv) (rt : RuntimeEnv) (hCtx : Option Health)
    (srvsComponent : Option SrvsComponentComposition) : GoResult MtsrvStatus :=
  let srvsStatus : MtsrvStatus := {}
  let detailedSumm : DetailedStatusSummary := {}
  let periphDetail : PeripheralList := {}
  match srvsComponent with
  | none => .panic
  | some srvsComponent =>
    let periphDetail :=
      if srvsComponent.Databases.length ≠ 0 then
        { periphDetail with
          Databases :=
            srvsComponent.Databases.foldl (fun acc db => acc ++ [db]) periphDetail.Databases }
      else periphDetail
    let periphDetail :=
      if srvsComponent.Transports.length ≠ 0 then
        { periphDetail with
          Transports :=
            srvsComponent.Transports.foldl (fun acc trans => acc ++ [trans])
              periphDetail.Transports }
      else periphDetail
    let detailedSumm := { detailedSumm with ConnectedPeripheral := some periphDetail }
    let detailedSumm :=
      if srvsComponent.SecurityStack.length ≠ 0 then
        { detailedSumm with Security := srvsComponent.SecurityStack }
      else detailedSumm
    match Health.ProcessDetail env rt hCtx with
    | .panic => .panic
    | .err _ => completeWithBrief hCtx srvsStatus detailedSumm
    | .ok processDetail =>
      completeWithBrief hCtx srvsStatus { detailedSumm with ProcessStatus := some processDetail }

/-! ## `libs/mtsrv/mtstatus.go`: the health context -/

/-- The `for ... range processes` loop of `NewHealthSrvs`, with what follows it. -/
def scanProcesses (env : TimeEnv) (serviceName : String) (healthCtx : Health) :
    List Process → GoResult Health
  | [] => .ok healthCtx
  | process :: rest =>
    match process.Name with
    | .err nErr => .err nErr
    | .ok processName =>
      if serviceName = processName then
        .ok { healthCtx with
          processCtx := some process, name := processName, startTime := env.now }
      else scanProcesses env serviceName healthCtx rest

/-- The function `NewHealthSrvs`; `processes` is what `process.Processes()`
returns. -/
def NewHealthSrvs (env : TimeEnv) (processes : Fallible (List Process))
    (serviceName : String) : GoResult Health :=
  match processes with
  | .err pErr => .err pErr
  | .ok processes => scanProcesses env serviceName {} processes

/-! ## Reference readings used by the statements -/

/-- The statuses of the database entries, then of the transport entries, then of
the security entries, read as one sequence (`none` for a nil entry); an absent
peripheral list contributes no entries. -/
def entryStatuses (ds : DetailedStatusSummary) : List (Option PeripheralStatusType) :=
  (match ds.ConnectedPeripheral with
    | none => []
    | some p =>
      p.Databases.map (Option.map fun db => db.Status) ++
        p.Transports.map (Option.map fun trans => trans.Status)) ++
    ds.Security.map (Option.map fun sec => sec.Status)

/-- The verdict on the process alone: RED when the process detail is missing or
its state is one of "T", "I", "W", "Z", "L", and GREEN otherwise. -/
def processVerdict (ps : Option ProcessDetail) : SrvHealthStatusType :=
  match ps with
  | none => ServiceHealthStatus_HEALTH_RED
  | some p =>
    if p.State ∈ ["T", "I", "W", "Z", "L"] then ServiceHealthStatus_HEALTH_RED
    else ServiceHealthStatus_HEALTH_GREEN

/-- The verdict an entry that is not CONNECTED forces. -/
def offenderVerdict (s : PeripheralStatusType) : SrvHealthStatusType :=
  if s = CONNECTING then ServiceHealthStatus_HEALTH_YELLOW else ServiceHealthStatus_HEALTH_RED

/-- The reference verdict: the first non-nil entry of the sequence whose status is
not CONNECTED decides; when there is none the process decides. -/
def referenceVerdict (ds : DetailedStatusSummary) : SrvHealthStatusType :=
  match ((entryStatuses ds).filterMap id).find? (fun s => decide (s ≠ CONNECTED)) with
  | some s => offenderVerdict s
  | none => processVerdict ds.ProcessStatus

/-- The first non-nil status of a sequence that is not CONNECTED, found by a
left-to-right walk. -/
def firstOffender : List (Option PeripheralStatusType) → Option PeripheralStatusType
  | [] => none
  | none :: rest => firstOffender rest
  | some s :: rest => if s = CONNECTED then firstOffender rest else some s

/-- The verdict read off the sequence of entry statuses by the left-to-right walk,
with the process consulted when no entry offends. -/
def walkVerdict (ds : DetailedStatusSummary) : SrvHealthStatusType :=
  match firstOffender (entryStatuses ds) with
  | some s => offenderVerdict s
  | none => processVerdict ds.ProcessStatus

/-- Scenario A: databases [CONNECTED, CONNECTING, CONNECTED], transports [FAILED]. -/
def scenarioA : DetailedStatusSummary :=
  { ConnectedPeripheral := some
      { Databases := [some { Status := CONNECTED }, some { Status := CONNECTING },
          some { Status := CONNECTED }]
        Transports := [some { Status := FAILED }] } }

/-- A status that agrees with Scenario A up to its first offending entry and
differs afterwards: databases [CONNECTED, CONNECTING], security [FAILED], a
running process. -/
def scenarioAVariant : DetailedStatusSummary :=
  { ConnectedPeripheral := some
      { Databases := [some { Status := CONNECTED }, some { Status := CONNECTING }] }
    Security := [some { Status := FAILED }]
    ProcessStatus := some { State := "R" } }

/-- Scenario B: every entry CONNECTED, process state "R". -/
def scenarioB : DetailedStatusSummary :=
  { ConnectedPeripheral := some
      { Databases := [some { Status := CONNECTED }, some { Status := CONNECTED }]
        Transports := [some { Status := CONNECTED }] }
    Security := [some { Status := CONNECTED }]
    ProcessStatus := some { State := "R" } }

/-- Scenario C: databases [CONNECTED], no transports, no security, no process. -/
def scenarioC : DetailedStatusSummary :=
  { ConnectedPeripheral := some { Databases := [some { Status := CONNECTED }] } }

/-- A database list with a FAILED entry behind a CONNECTING one. -/
def failedBehindConnecting : DetailedStatusSummary :=
  { ConnectedPeripheral := some
      { Databases := [some { Status := CONNECTING }, some { Status := FAILED }] }
    ProcessStatus := some { State := "R" } }

/-- A status without a peripheral list, with a running process. -/
def noPeripheralList : DetailedStatusSummary :=
  { ConnectedPeripheral := none, ProcessStatus := some { State := "R" } }

/-- A connected database with three failed reads. -/
def degradedDatabase : DatabaseHealthStat :=
  { DatabaseName := "cassandra", IsConnected := true, TotalReadOp := 10,
    TotalUnsuccessfulReadOp := 3, TotalLatencyReadOp := 250, TotalLatencyWriteOp := 77 }

/-- A connected security service with one failed decryption. -/
def degradedSecurity : SecurityStackHealthStat :=
  { SecuritySrvsName := "vault", IsConnected := true,
    TotalUnsuccessfulDecryption := { x := 1 } }

/-- A connected transport whose lifetime error counters are nonzero while its
per-interval error counters are zero. -/
def lifetimeErrorsOnly : TransportHealthStat :=
  { TransportName := "kafka", IsConnected := true,
    TotalTxErr := { x := 5 }, TotalRxErr := { x := 2 } }

/-- A connected transport with a send error in the current interval, no message
sent and a nonzero send-time total. -/
def intervalErrors : TransportHealthStat :=
  { TransportName := "kafka", IsConnected := true,
    TotalTxErrInOneInterval := { x := 1 }, TotalRxInOneInterval := { x := 4 },
    TotalTimeToSendMsgsInOneInterval := 900, TotalTimeToReceiveMsgsInOneInterval := 90 }

/-- A clock and a duration rendering to evaluate the builders at concrete inputs. -/
def sampleEnv : TimeEnv :=
  { now := 1000, durationString := fun d => toString d ++ "ns" }

/-- A connected database whose read count is the largest `uint64`, with a total
read latency of 10. -/
def overflowDatabase : DatabaseHealthStat :=
  { DatabaseName := "cassandra", IsConnected := true, TotalReadOp := 2 ^ 64 - 1,
    TotalLatencyReadOp := 10 }

/-- A connected transport whose per-interval receive count is `2 ^ 63`, with a
total receive time of `-(2 ^ 63)`. -/
def overflowTransport : TransportHealthStat :=
  { TransportName := "kafka", IsConnected := true,
    TotalRxInOneInterval := { x := 2 ^ 63 },
    TotalTimeToReceiveMsgsInOneInterval := -(2 ^ 63) }

/-- A healthy database with 4 reads in 250 ns, 3 writes in -7 ns (a clock step)
and a stale last error. -/
def healthyDatabase : DatabaseHealthStat :=
  { DatabaseName := "cassandra", IsConnected := true, TotalReadOp := 4, TotalWriteOp := 3,
    TotalLatencyReadOp := 250, TotalLatencyWriteOp := -7, InitializationTime := 400,
    Error := some "stale" }

/-- A healthy transport with lifetime and per-interval traffic. -/
def healthyTransport : TransportHealthStat :=
  { TransportName := "kafka", IsConnected := true,
    TotalRx := { x := 2 ^ 64 - 1 }, TotalRxErr := { x := 3 },
    TotalTx := { x := 40 }, TotalTxErr := { x := 2 },
    TotalRxInOneInterval := { x := 6 }, TotalTxInOneInterval := { x := 4 },
    TotalTimeToSendMsgsInOneInterval := 900, TotalTimeToReceiveMsgsInOneInterval := -13,
    InitializationTime := 400, Error := some "stale" }

/-- A disconnected security service with a last error. -/
def failedSecurity : SecurityStackHealthStat :=
  { SecuritySrvsName := "vault", IsConnected := false, InitializationTime := 400,
    TotalUnsuccessfulEncryption := { x := 9 }, Error := some "connection refused" }

/-- A process handle whose state, page-fault, I/O, CPU-times and memory-percent
queries succeed, whose thread-count and CPU-percent queries fail, and whose
network query returns one entry together with an error. -/
def sampleProcess : Process :=
  { Pid := 4242
    Name := .ok "svc"
    Status := .ok "R"
    NumThreads := .err "no threads"
    PageFaults := .ok { MinorFaults := 5, MajorFaults := 1, ChildMinorFaults := 2 }
    IOCounters := .ok { ReadCount := 3, WriteCount := 4, ReadBytes := 300, WriteBytes := 400 }
    CPUPercent := .err "no cpu"
    Times := .ok { User := 17, System := 19 }
    MemoryPercent := .ok 1078530011
    NetIOCounters := ([{ Name := "eth0", BytesRecv := 10, PacketsRecv := 1 }],
      some "parse error") }

/-- Answers of the Go runtime to evaluate the process probe at concrete inputs. -/
def sampleRuntime : RuntimeEnv :=
  { memStats := { Alloc := 1024, NumGC := 3 }, numGoroutine := 8, numCPU := 2 }

/-- A Health context bound to `sampleProcess`. -/
def boundHealth : Health :=
  { name := "svc", startTime := 400, processCtx := some sampleProcess }

/-- A Health context without a process handle. -/
def unboundHealth : Health :=
  { name := "", startTime := 0, processCtx := none }

/-- A process table: "init", "svc" (pid 7), a process whose name cannot be read,
and a second "svc" (pid 12). -/
def processTable : List Process :=
  [{ Pid := 1, Name := .ok "init" }, { Pid := 7, Name := .ok "svc" },
   { Pid := 9, Name := .err "gone" }, { Pid := 12, Name := .ok "svc" }]

/-- A process table in which a process whose name cannot be read stands before
the only process named "svc". -/
def unreadableFirst : List Process :=
  [{ Pid := 1, Name := .ok "init" }, { Pid := 9, Name := .err "gone" },
   { Pid := 12, Name := .ok "svc" }]

/-! ## `libs/metrics/counter.go`: labels and JSON -/

/-- One method call on a `Zcounter`: a value operation or `Label(l)`. -/
inductive CounterCall where
  | value (op : CounterOp)
  | label (l : String)
deriving DecidableEq, Repr

/-- Perform the method call on the counter. -/
def CounterCall.call (zc : Zcounter) : CounterCall → Zcounter
  | .value op => op.call zc
  | .label l => zc.Label l

/-- Perform the calls one after another, the head of the list first. -/
def runCalls (zc : Zcounter) : List CounterCall → Zcounter
  | [] => zc
  | c :: rest => runCalls (c.call zc) rest

/-- The argument of the most recent `Label` call of a history, `start` if there
is none. -/
def lastLabel (start : String) : List CounterCall → String
  | [] => start
  | .value _ :: rest => lastLabel start rest
  | .label l :: rest => lastLabel l rest

/-- The value operations of a history, in order. -/
def valueOps : List CounterCall → List CounterOp
  | [] => []
  | .value op :: rest => op :: valueOps rest
  | .label _ :: rest => valueOps rest

/-- The struct `zcounterJson`: `Label` carries the tag `json:",omitempty"`. -/
structure zcounterJson where
  Label : String := ""
  X : Nat := 0
deriving DecidableEq, Repr

/-- What `json.Marshal` of the standard library writes for a `zcounterJson`, after
the documentation of `encoding/json`: an object with the exported fields in
declaration order under their names, the field `Label` left out when it is the
empty string (`omitempty`), the `uint64` field as a decimal number. `quote` is
the library's encoding of a Go string as a JSON string. -/
def jsonMarshalZcounterJson (quote : String → String) (b : zcounterJson) : String :=
  "\x7b" ++ (if b.Label = "" then "" else "\"Label\":" ++ quote b.Label ++ ",") ++
    "\"X\":" ++ toString b.X ++ "\x7d"

/-- The method `Zcounter.MarshalJSON`. -/
def Zcounter.MarshalJSON (quote : String → String) (a : Zcounter) : GoResult String :=
  let b : zcounterJson := {}
  let b := { b with Label := a.label }
  let b := { b with X := a.x }
  .ok (jsonMarshalZcounterJson quote b)

/-- The JSON encoding of a string that needs no escaping: the string between
double quotes. -/
def plainQuote (s : String) : String :=
  "\"" ++ s ++ "\""

/-! ## `libs/mtsrv/mtstats.go` and `libs/mtsrv/mtsrv.go`: the metric registry -/

/-- A dynamic Go value (`interface{}`), as far as a metric entry carries one. -/
inductive GoValue where
  | uint (n : Nat)
  | int (i : Int)
  | str (s : String)
deriving DecidableEq, Repr

/-- The Go type `MetricType` (an `int`). -/
abbrev MetricType := Int

abbrev metCounter : MetricType := 1
abbrev metGauge : MetricType := 2
abbrev metState : MetricType := 3

/-- The struct `MetricEntry`. -/
structure MetricEntry where
  mtype : MetricType := 0
  mkey : String := ""
  mvalue : Option GoValue := none
deriving DecidableEq, Repr

/-- The struct `MetricCollect`. -/
structure MetricCollect where
  CollectionName : String := ""
  metrics : List MetricEntry := []
deriving DecidableEq, Repr

/-- The method `(*MetricCollect).AddCounter`. -/
def MetricCollect.AddCounter (mc : MetricCollect) (key : String) (val : Option GoValue) :
    MetricCollect :=
  let mEntry : MetricEntry := { mtype := metCounter, mkey := key, mvalue := val }
  { mc with metrics := mc.metrics ++ [mEntry] }

/-- The method `(*MetricCollect).AddGauge`. -/
def MetricCollect.AddGauge (mc : MetricCollect) (key : String) (val : Option GoValue) :
    MetricCollect :=
  let mEntry : MetricEntry := { mtype := metGauge, mkey := key, mvalue := val }
  { mc with metrics := mc.metrics ++ [mEntry] }

/-- A (non-nil) implementation of the interface `MtMetric`, as the answer its
`Marshal()` gives; `ident` tells the objects apart. -/
structure MtMetric where
  ident : Nat := 0
  Marshal : Fallible MetricCollect := .ok {}
deriving DecidableEq, Repr

/-- A call the server makes during a flush: on its own mutex, or a method of a
registered metric (with the name the metric is registered under). -/
inductive Call where
  | ServerLock
  | ServerUnlock
  | MetricLock (name : String) (met : MtMetric)
  | MetricUnlock (name : String) (met : MtMetric)
  | MetricMarshal (name : String) (met : MtMetric)
deriving DecidableEq, Repr

/-- A Go `map[string]MtMetric` with entries: a list of pairs whose order stands
for the (unspecified) order in which `range` visits them. -/
abbrev MetricMap := List (String × MtMetric)

/-- The map read `m[name]`. -/
def goMapLoad : MetricMap → String → Option MtMetric
  | [], _ => none
  | (k, v) :: rest, name => if k = name then some v else goMapLoad rest name

/-- The map assignment `m[name] = met`. -/
def goMapStore : MetricMap → String → MtMetric → MetricMap
  | [], name, met => [(name, met)]
  | (k, v) :: rest, name, met =>
    if k = name then (k, met) :: rest else (k, v) :: goMapStore rest name met

/-- The built-in `delete(m, name)`. -/
def goMapDelete : MetricMap → String → MetricMap
  | [], _ => []
  | (k, v) :: rest, name =>
    if k = name then goMapDelete rest name else (k, v) :: goMapDelete rest name

/-- The struct `Server`; `metList = none` is the nil map of a zero `Server`. The
embedded mutex is free between calls. -/
structure Server where
  metList : Option MetricMap := none
deriving DecidableEq, Repr

/-- The function `NewServer`; its argument `scCfg` is not read. -/
def NewServer : Server :=
  let s : Server := {}
  { s with metList := some [] }

/-- The method `(*Server).RegisterMetric`, between `s.Lock()` and the deferred
`s.Unlock()`; an assignment to an entry of a nil map panics. -/
def RegisterMetric (s : Server) (name : String) (met : MtMetric) : GoResult Server :=
  match s.metList with
  | none => .panic
  | some m => .ok { s with metList := some (goMapStore m name met) }

/-- The method `(*Server).UnregisterMetric`, between `s.Lock()` and the deferred
`s.Unlock()`; `delete` on a nil map does nothing. -/
def UnregisterMetric (s : Server) (name : String) : Server :=
  match s.metList with
  | none => s
  | some m => { s with metList := some (goMapDelete m name) }

/-- The `for _, met := range s.metList` loop of `statusUpdate`: the calls it makes
on the metrics. The answer of `met.Marshal()` goes to the logger only; its error
is discarded (`metStr, _ := met.Marshal()`). -/
def sweepMetrics : MetricMap → List Call
  | [] => []
  | (name, met) :: rest =>
    let _metStr := met.Marshal
    Call.MetricMarshal name met :: sweepMetrics rest

/-- What one run of `statusUpdate` leaves behind: the server, the calls made in
order, and the returned value. -/
structure StatusUpdateRun where
  server : Server
  calls : List Call
  result : Int
deriving DecidableEq, Repr

/-- The method `(*Server).statusUpdate`. -/
def statusUpdate (s : Server) : StatusUpdateRun :=
  let sweep :=
    match s.metList with
    | none => []
    | some m => sweepMetrics m
  { server := s, calls := [Call.ServerLock] ++ sweep ++ [Call.ServerUnlock], result := 1 }

/-! ## `srvs/helloworld/drona.go`: the worker pool -/

/-- The constant `DefaultNumberOfHandlers`. -/
abbrev DefaultNumberOfHandlers : Int := 11

/-- The struct `DronaCtx`: a channel is kept as its capacity, the wait-group as
its counter. -/
structure DronaCtx where
  reqChan : Nat := 0
  respChan : Nat := 0
  noHandlers : Int := 0
  wg : Nat := 0
  quitChan : Nat := 0
deriving DecidableEq, Repr

/-- What `NewDronaCtx` has set up when it returns: the context and the number of
goroutines started on `ListenAndServe`. -/
structure DronaStart where
  ctx : DronaCtx
  workers : Nat
deriving DecidableEq, Repr

/-- A 64-bit Go platform, by the allocation bound `maxAlloc` of its run-time
(`1 << heapAddrBits`, with 33 to 48 heap address bits). -/
structure GoPlatform where
  maxAlloc : Nat
  maxAlloc_ge : 2 ^ 33 ≤ maxAlloc
  maxAlloc_le : maxAlloc ≤ 2 ^ 48

/-- The size of a channel element `*DronaRequest`, a pointer, in bytes. -/
abbrev ptrSize : Int := 8

/-- The size of the run-time's channel header `hchan`, in bytes. -/
abbrev hchanSize : Int := 96

/-- The conversion `uintptr(i)` of a Go `int`: the two's complement reading of a
negative value. -/
def toUintptr (i : Int) : Int :=
  if i < 0 then i + 2 ^ 64 else i

/-- The built-in `make(chan *DronaRequest, size)`, after `runtime.makechan`:
`mem, overflow := math.MulUintptr(elem.size, uintptr(size))`, and the panic
"makechan: size out of range" (`none`) when
`overflow || mem > maxAlloc-hchanSize || size < 0`; otherwise a channel of that
capacity. Running out of memory is a fatal error of the process, not an outcome
of the call, and is not modelled. -/
def makeChan (plat : GoPlatform) (size : Int) : Option Nat :=
  let product := ptrSize * toUintptr size
  let mem := product % 2 ^ 64
  if 2 ^ 64 ≤ product ∨ mem > (plat.maxAlloc : Int) - hchanSize ∨ size < 0 then none
  else some size.toNat

/-- The loop `for i := 0; i < dSync.noHandlers; i++` of `NewDronaCtx`, by the number
of iterations left: each one does `wg.Add(1)` and starts a goroutine. -/
def startHandlers : Nat → DronaStart → DronaStart
  | 0, st => st
  | left + 1, st =>
    startHandlers left { ctx := { st.ctx with wg := st.ctx.wg + 1 }, workers := st.workers + 1 }

/-- The function `NewDronaCtx`, on the platform `plat`; `noHandlers` is a Go `int`
(64 bits), and the argument `name` is not read. -/
def NewDronaCtx (plat : GoPlatform) (_name : String) (noHandlers : Int) :
    GoResult DronaStart :=
  let dSync : DronaCtx := {}
  let dSync := { dSync with noHandlers := noHandlers }
  let dSync :=
    if noHandlers = 0 then { dSync with noHandlers := DefaultNumberOfHandlers } else dSync
  let dSync := { dSync with wg := 0 }
  match makeChan plat dSync.noHandlers with
  | none => .panic
  | some reqChan =>
    match makeChan plat dSync.noHandlers with
    | none => .panic
    | some respChan =>
      let dSync := { dSync with reqChan := reqChan, respChan := respChan, quitChan := 0 }
      .ok (startHandlers dSync.noHandlers.toNat { ctx := dSync, workers := 0 })

/-! ## Readings and inputs for the registry statements -/

/-- The metrics on which a list of calls invokes `Marshal` under the name `name`,
in call order. -/
def marshalCalls (name : String) : List Call → List MtMetric
  | [] => []
  | .MetricMarshal k met :: rest =>
    if k = name then met :: marshalCalls name rest else marshalCalls name rest
  | _ :: rest => marshalCalls name rest

/-- The names under which a map holds entries. -/
def mapKeys (m : MetricMap) : List String :=
  m.map Prod.fst

/-- A metric whose `Marshal` succeeds. -/
def goodMetric : MtMetric :=
  { ident := 1, Marshal := .ok { CollectionName := "requests" } }

/-- A metric whose `Marshal` fails. -/
def brokenMetric : MtMetric :=
  { ident := 2, Marshal := .err "marshal failed" }

/-- Another metric whose `Marshal` succeeds. -/
def lateMetric : MtMetric :=
  { ident := 3, Marshal := .ok { CollectionName := "latency" } }

/-- A registry in which a failing metric stands between two working ones. -/
def sampleRegistry : Server :=
  { metList := some [("requests", goodMetric), ("broken", brokenMetric),
      ("latency", lateMetric)] }

/-- A transport stat with its lifetime counters and latency totals replaced. -/
def withLifetime (st : TransportHealthStat) (tx rx txErr rxErr : Zcounter)
    (sendTime recvTime : Int) : TransportHealthStat :=
  { st with
    TotalTx := tx
    TotalRx := rx
    TotalTxErr := txErr
    TotalRxErr := rxErr
    TotalTimeToSendMsgsInOneInterval := sendTime
    TotalTimeToReceiveMsgsInOneInterval := recvTime }

/-- A process table without a process named "svc". -/
def tableWithoutService : List Process :=
  [{ Pid := 1, Name := .ok "init" }, { Pid := 2, Name := .ok "sshd" }]

/-- The platform linux/amd64: 48 heap address bits. -/
def linuxAmd64 : GoPlatform :=
  { maxAlloc := 2 ^ 48, maxAlloc_ge := by norm_num, maxAlloc_le := le_refl _ }

/-! ## Counters: theorems -/

theorem runOps_value (ops : List CounterOp) (zc : Zcounter) :
    (runOps zc ops).Value = List.foldl specStep zc.x ops := by
  induction ops generalizing zc with
  | nil => rfl
  | cons op rest ih =>
    rw [runOps, ih, List.foldl_cons]
    cases op <;> rfl

theorem runOps_isU64 (ops : List CounterOp) (zc : Zcounter)
    (hops : ∀ op ∈ ops, op.WellTyped) (hzc : IsU64 zc.x) : IsU64 (runOps zc ops).x := by
  induction ops generalizing zc with
  | nil => exact hzc
  | cons op rest ih =>
    rw [runOps]
    apply ih
    · intro o ho
      exact hops o (List.mem_cons_of_mem _ ho)
    · have hop := hops op (List.mem_cons_self _ _)
      cases op with
      | set v => exact hop
      | add d => exact Nat.mod_lt _ (by norm_num)
      | inc => exact Nat.mod_lt _ (by norm_num)
      | reset => exact (by norm_num : (0 : Nat) < 2 ^ 64)

/-- C1: for every finite history of `Set(v)`, `Add(d)`, `Inc()` and `Reset()` calls
(with `uint64` arguments) performed one after another on a fresh counter,
`Value()` is the fold of the operations over 0 in unsigned 64-bit arithmetic and
is a `uint64`; `Set(222)` then `Add(2)` gives 224; and `Value()` is 0 right after
a `Reset()` whatever the counter held before. -/
theorem counter_value_is_fold (ops : List CounterOp) (hops : ∀ op ∈ ops, op.WellTyped) :
    (runOps {} ops).Value = specValue ops ∧
    IsU64 (runOps {} ops).Value ∧
    (runOps {} [.set 222, .add 2]).Value = 224 ∧
    (∀ zc : Zcounter, (runOps zc ops).Reset.Value = 0) ∧
    (runOps {} (ops ++ [.reset])).Value = 0 := by
  refine ⟨runOps_value ops {}, ?_, ?_, ?_, ?_⟩
  · exact runOps_isU64 ops {} hops (by unfold IsU64; norm_num)
  · decide
  · intro zc; rfl
  · rw [runOps_value, List.foldl_append]; rfl

theorem counter_value_is_fold_witness :
    (∀ op ∈ [CounterOp.set 222, .add 2, .inc, .add (2 ^ 64 - 1), .reset, .inc],
      op.WellTyped) ∧
    (runOps {} [CounterOp.set 222, .add 2, .inc, .add (2 ^ 64 - 1), .reset, .inc]).Value
      = specValue [CounterOp.set 222, .add 2, .inc, .add (2 ^ 64 - 1), .reset, .inc] ∧
    specValue [CounterOp.set 222, .add 2, .inc, .add (2 ^ 64 - 1), .reset, .inc] = 1 ∧
    (runOps {} [CounterOp.set 222, .add 2, .inc, .add (2 ^ 64 - 1)]).Value = 224 :=
  ⟨by decide,
   (counter_value_is_fold [CounterOp.set 222, .add 2, .inc, .add (2 ^ 64 - 1), .reset, .inc]
      (by decide)).1,
   by decide, by decide⟩

/-! ## The brief verdict: the loops -/

theorem firstOffender_eq_find (l : List (Option PeripheralStatusType)) :
    firstOffender l = (l.filterMap id).find? (fun s => decide (s ≠ CONNECTED)) := by
  induction l with
  | nil => rfl
  | cons e rest ih =>
    cases e with
    | none => simpa [firstOffender] using ih
    | some s =>
      by_cases hs : s = CONNECTED
      · simp [firstOffender, hs, ih]
      · simp [firstOffender, hs]

theorem firstOffender_append_some (l₁ l₂ : List (Option PeripheralStatusType))
    (s : PeripheralStatusType) (h : firstOffender l₁ = some s) :
    firstOffender (l₁ ++ l₂) = some s := by
  induction l₁ with
  | nil => simp [firstOffender] at h
  | cons e rest ih =>
    cases e with
    | none =>
      simp only [firstOffender, List.cons_append] at h ⊢
      exact ih h
    | some t =>
      by_cases ht : t = CONNECTED
      · simp only [firstOffender, List.cons_append, ht, if_true] at h ⊢
        exact ih h
      · simp only [firstOffender, List.cons_append, ht, if_false] at h ⊢
        exact h

theorem firstOffender_append_none (l₁ l₂ : List (Option PeripheralStatusType))
    (h : firstOffender l₁ = none) :
    firstOffender (l₁ ++ l₂) = firstOffender l₂ := by
  induction l₁ with
  | nil => rfl
  | cons e rest ih =>
    cases e with
    | none =>
      simp only [firstOffender, List.cons_append] at h ⊢
      exact ih h
    | some t =>
      by_cases ht : t = CONNECTED
      · simp only [firstOffender, List.cons_append, ht, if_true] at h ⊢
        exact ih h
      · simp [firstOffender, ht] at h

theorem firstOffender_none_iff (l : List (Option PeripheralStatusType)) :
    firstOffender l = none ↔ ∀ e ∈ l, e = none ∨ e = some CONNECTED := by
  induction l with
  | nil => simp [firstOffender]
  | cons e rest ih =>
    cases e with
    | none => simp [firstOffender, ih]
    | some t =>
      by_cases ht : t = CONNECTED
      · simp [firstOffender, ht, ih]
      · simp [firstOffender, ht]

theorem scanPeripherals_offender {α : Type} (status : α → PeripheralStatusType)
    (l : List (Option α)) (b : BriefStatusSummary) (s : PeripheralStatusType)
    (h : firstOffender (l.map (Option.map status)) = some s) :
    scanPeripherals status b l = .returned ⟨b.ServiceName, offenderVerdict s⟩ := by
  induction l generalizing b with
  | nil => simp [firstOffender] at h
  | cons e rest ih =>
    cases e with
    | none =>
      simp only [List.map_cons, Option.map_none', firstOffender] at h
      rw [scanPeripherals]
      exact ih b h
    | some p =>
      simp only [List.map_cons, Option.map_some', firstOffender] at h
      rw [scanPeripherals]
      by_cases hp : status p = CONNECTED
      · rw [if_pos hp] at h ⊢
        exact ih _ h
      · rw [if_neg hp] at h ⊢
        cases h
        unfold offenderVerdict
        by_cases hc : status p = CONNECTING
        · rw [if_pos hc, if_pos hc]
        · rw [if_neg hc, if_neg hc]

theorem scanPeripherals_clean {α : Type} (status : α → PeripheralStatusType)
    (l : List (Option α)) (b : BriefStatusSummary)
    (h : firstOffender (l.map (Option.map status)) = none) :
    ∃ t, scanPeripherals status b l = .completed ⟨b.ServiceName, t⟩ := by
  induction l generalizing b with
  | nil => exact ⟨b.Status, rfl⟩
  | cons e rest ih =>
    cases e with
    | none =>
      simp only [List.map_cons, Option.map_none', firstOffender] at h
      rw [scanPeripherals]
      exact ih b h
    | some p =>
      simp only [List.map_cons, Option.map_some', firstOffender] at h
      rw [scanPeripherals]
      by_cases hp : status p = CONNECTED
      · rw [if_pos hp] at h ⊢
        exact ih _ h
      · rw [if_neg hp] at h
        cases h

theorem scanDatabases_eq (b : BriefStatusSummary) (l : List (Option PersistenceStatusDetail)) :
    scanDatabases b l = scanPeripherals (fun db => db.Status) b l := by
  cases l <;> simp [scanDatabases, scanPeripherals]

theorem scanTransports_eq (b : BriefStatusSummary)
    (l : List (Option TransportBlockStatusDetail)) :
    scanTransports b l = scanPeripherals (fun trans => trans.Status) b l := by
  cases l <;> simp [scanTransports, scanPeripherals]

theorem scanSecurity_eq (b : BriefStatusSummary) (l : List (Option SecurityStackDetail)) :
    scanSecurity b l = scanPeripherals (fun sec => sec.Status) b l := by
  cases l <;> simp [scanSecurity, scanPeripherals]

theorem BriefSrvsStatus_eq (h : Health) (bs : Option BriefStatusSummary)
    (ds : DetailedStatusSummary) :
    BriefSrvsStatus (some h) (some ⟨bs, some ds⟩) = .ok ⟨h.name, walkVerdict ds⟩ := by
  have hproc : ∀ (n : String) (t : SrvHealthStatusType),
      (match ds.ProcessStatus with
        | none => GoResult.ok
            { (⟨n, t⟩ : BriefStatusSummary) with Status := ServiceHealthStatus_HEALTH_RED }
        | some processStatus =>
          if processStatus.State = "T" ∨ processStatus.State = "I" ∨
              processStatus.State = "W" ∨ processStatus.State = "Z" ∨
              processStatus.State = "L" then
            GoResult.ok
              { (⟨n, t⟩ : BriefStatusSummary) with Status := ServiceHealthStatus_HEALTH_RED }
          else
            GoResult.ok
              { (⟨n, t⟩ : BriefStatusSummary) with Status := ServiceHealthStatus_HEALTH_GREEN })
        = GoResult.ok ⟨n, processVerdict ds.ProcessStatus⟩ := by
    intro n t
    cases ds.ProcessStatus with
    | none => rfl
    | some p =>
      simp only [processVerdict, List.mem_cons, List.mem_singleton, List.not_mem_nil, or_false]
      split <;> rfl
  unfold BriefSrvsStatus walkVerdict entryStatuses
  simp only [scanDatabases_eq, scanTransports_eq, scanSecurity_eq]
  cases hcp : ds.ConnectedPeripheral with
  | none =>
    simp only [List.nil_append]
    cases hs : firstOffender (ds.Security.map (Option.map fun sec => sec.Status)) with
    | some s =>
      rw [scanPeripherals_offender _ _ _ s hs]
    | none =>
      obtain ⟨t, ht⟩ := scanPeripherals_clean (fun sec : SecurityStackDetail => sec.Status)
        ds.Security ⟨h.name, 0⟩ hs
      rw [ht]
      exact hproc _ _
  | some p =>
    simp only []
    cases hd : firstOffender (p.Databases.map (Option.map fun db => db.Status)) with
    | some s =>
      rw [scanPeripherals_offender _ _ _ s hd, List.append_assoc,
        firstOffender_append_some _ _ s hd]
    | none =>
      obtain ⟨t, ht⟩ := scanPeripherals_clean (fun db : PersistenceStatusDetail => db.Status)
        p.Databases ⟨h.name, 0⟩ hd
      rw [ht, List.append_assoc, firstOffender_append_none _ _ hd]
      simp only []
      cases htr : firstOffender (p.Transports.map (Option.map fun trans => trans.Status)) with
      | some s =>
        rw [scanPeripherals_offender _ _ _ s htr, firstOffender_append_some _ _ s htr]
      | none =>
        obtain ⟨t₂, ht₂⟩ := scanPeripherals_clean
          (fun trans : TransportBlockStatusDetail => trans.Status) p.Transports ⟨h.name, t⟩ htr
        rw [ht₂, firstOffender_append_none _ _ htr]
        simp only []
        cases hs : firstOffender (ds.Security.map (Option.map fun sec => sec.Status)) with
        | some s =>
          rw [scanPeripherals_offender _ _ _ s hs]
        | none =>
          obtain ⟨t₃, ht₃⟩ := scanPeripherals_clean
            (fun sec : SecurityStackDetail => sec.Status) ds.Security ⟨h.name, t₂⟩ hs
          rw [ht₃]
          exact hproc _ _

theorem firstOffender_split (pre rest : List (Option PeripheralStatusType))
    (s : PeripheralStatusType) (hpre : ∀ e ∈ pre, e = none ∨ e = some CONNECTED)
    (hs : s ≠ CONNECTED) : firstOffender (pre ++ some s :: rest) = some s := by
  rw [firstOffender_append_none _ _ ((firstOffender_none_iff pre).2 hpre)]
  simp [firstOffender, hs]

/-! ## The brief verdict: theorems -/

/-- C2: for every DetailedStatus, on a non-nil Health context, `BriefSrvsStatus`
succeeds and its verdict is the reference verdict: among the non-nil entries of
the database, transport and security lists read as one sequence, the first entry
whose status is not CONNECTED gives YELLOW when it is CONNECTING and RED
otherwise; without such an entry the verdict is RED when the process detail is
nil or its state is "T", "I", "W", "Z" or "L", and GREEN otherwise. -/
theorem brief_verdict_matches_reference (h : Health) (bs : Option BriefStatusSummary)
    (ds : DetailedStatusSummary) :
    BriefSrvsStatus (some h) (some ⟨bs, some ds⟩) = .ok ⟨h.name, referenceVerdict ds⟩ := by
  rw [BriefSrvsStatus_eq]
  unfold walkVerdict referenceVerdict
  rw [firstOffender_eq_find]

/-- C3: two DetailedStatus values whose entry sequences (databases, transports,
security) agree up to and including the first entry that is not CONNECTED get
the same verdict, YELLOW if that entry is CONNECTING and RED otherwise, whatever
follows that entry and whatever the process status is; databases
[CONNECTED, CONNECTING, CONNECTED] with transports [FAILED] yield YELLOW. -/
theorem brief_verdict_decided_by_first_offender (h₁ h₂ : Health)
    (bs₁ bs₂ : Option BriefStatusSummary) (ds₁ ds₂ : DetailedStatusSummary)
    (pre rest₁ rest₂ : List (Option PeripheralStatusType)) (s : PeripheralStatusType)
    (hpre : ∀ e ∈ pre, e = none ∨ e = some CONNECTED) (hs : s ≠ CONNECTED)
    (hds₁ : entryStatuses ds₁ = pre ++ some s :: rest₁)
    (hds₂ : entryStatuses ds₂ = pre ++ some s :: rest₂) :
    BriefSrvsStatus (some h₁) (some ⟨bs₁, some ds₁⟩) =
      .ok ⟨h₁.name, if s = CONNECTING then ServiceHealthStatus_HEALTH_YELLOW
        else ServiceHealthStatus_HEALTH_RED⟩ ∧
    BriefSrvsStatus (some h₂) (some ⟨bs₂, some ds₂⟩) =
      .ok ⟨h₂.name, if s = CONNECTING then ServiceHealthStatus_HEALTH_YELLOW
        else ServiceHealthStatus_HEALTH_RED⟩ ∧
    BriefSrvsStatus (some h₁)
      (some ⟨none, some
        { ConnectedPeripheral := some
            { Databases := [some { Status := CONNECTED }, some { Status := CONNECTING },
                some { Status := CONNECTED }]
              Transports := [some { Status := FAILED }] } }⟩) =
      .ok ⟨h₁.name, ServiceHealthStatus_HEALTH_YELLOW⟩ := by
  refine ⟨?_, ?_, ?_⟩
  · rw [BriefSrvsStatus_eq]
    unfold walkVerdict
    rw [hds₁, firstOffender_split pre rest₁ s hpre hs]
    rfl
  · rw [BriefSrvsStatus_eq]
    unfold walkVerdict
    rw [hds₂, firstOffender_split pre rest₂ s hpre hs]
    rfl
  · rw [BriefSrvsStatus_eq]
    rfl

theorem brief_verdict_decided_by_first_offender_witness :
    entryStatuses scenarioA =
      [some CONNECTED] ++ some CONNECTING :: [some CONNECTED, some FAILED] ∧
    entryStatuses scenarioAVariant = [some CONNECTED] ++ some CONNECTING :: [some FAILED] ∧
    BriefSrvsStatus (some { name := "svc" }) (some ⟨none, some scenarioA⟩) =
      .ok ⟨"svc", ServiceHealthStatus_HEALTH_YELLOW⟩ ∧
    BriefSrvsStatus (some { name := "svc" }) (some ⟨none, some scenarioAVariant⟩) =
      .ok ⟨"svc", ServiceHealthStatus_HEALTH_YELLOW⟩ :=
  ⟨by decide, by decide,
   (brief_verdict_decided_by_first_offender { name := "svc" } { name := "svc" } none none
      scenarioA scenarioAVariant [some CONNECTED] [some CONNECTED, some FAILED] [some FAILED]
      CONNECTING (by decide) (by decide) (by decide) (by decide)).1,
   (brief_verdict_decided_by_first_offender { name := "svc" } { name := "svc" } none none
      scenarioA scenarioAVariant [some CONNECTED] [some CONNECTED, some FAILED] [some FAILED]
      CONNECTING (by decide) (by decide) (by decide) (by decide)).2.1⟩

/-- C4, as stated, fails: a database list that contains a FAILED entry behind a
CONNECTING entry gets YELLOW, not RED. -/
theorem failed_database_anywhere_counterexample :
    (∃ p, failedBehindConnecting.ConnectedPeripheral = some p ∧
      some ({ Status := FAILED } : PersistenceStatusDetail) ∈ p.Databases) ∧
    BriefSrvsStatus (some { name := "svc" }) (some ⟨none, some failedBehindConnecting⟩) =
      .ok ⟨"svc", ServiceHealthStatus_HEALTH_YELLOW⟩ ∧
    BriefSrvsStatus (some { name := "svc" }) (some ⟨none, some failedBehindConnecting⟩) ≠
      .ok ⟨"svc", ServiceHealthStatus_HEALTH_RED⟩ := by
  refine ⟨⟨_, rfl, by decide⟩, by decide, by decide⟩

/-- C4 (amended): when the database list contains a FAILED entry and every
database entry before it is nil or CONNECTED, `BriefSrvsStatus` returns RED,
whatever follows that entry. -/
theorem failed_database_first_offender_red (h : Health) (bs : Option BriefStatusSummary)
    (ds : DetailedStatusSummary) (p : PeripheralList)
    (pre post : List (Option PersistenceStatusDetail)) (d : PersistenceStatusDetail)
    (hp : ds.ConnectedPeripheral = some p) (hdbs : p.Databases = pre ++ some d :: post)
    (hd : d.Status = FAILED)
    (hpre : ∀ e ∈ pre, e = none ∨ ∃ c, e = some c ∧ c.Status = CONNECTED) :
    BriefSrvsStatus (some h) (some ⟨bs, some ds⟩) =
      .ok ⟨h.name, ServiceHealthStatus_HEALTH_RED⟩ := by
  rw [BriefSrvsStatus_eq]
  unfold walkVerdict entryStatuses
  have hclean : ∀ e ∈ pre.map (Option.map fun db : PersistenceStatusDetail => db.Status),
      e = none ∨ e = some CONNECTED := by
    intro e he
    obtain ⟨x, hx, rfl⟩ := List.mem_map.1 he
    rcases hpre x hx with rfl | ⟨c, rfl, hc⟩
    · exact Or.inl rfl
    · exact Or.inr (by simp [hc])
  have hfirst : firstOffender
      (p.Databases.map (Option.map fun db : PersistenceStatusDetail => db.Status)) =
        some FAILED := by
    rw [hdbs, List.map_append, List.map_cons, Option.map_some', hd]
    exact firstOffender_split _ _ FAILED hclean (by decide)
  rw [hp]
  simp only []
  rw [List.append_assoc, firstOffender_append_some _ _ FAILED hfirst]
  rfl

theorem failed_database_first_offender_red_witness :
    BriefSrvsStatus (some { name := "svc" })
      (some ⟨none, some
        { ConnectedPeripheral := some
            { Databases := [none, some { Status := CONNECTED }, some { Status := FAILED },
                some { Status := CONNECTING }]
              Transports := [some { Status := CONNECTING }] }
          ProcessStatus := some { State := "R" } }⟩) =
      .ok ⟨"svc", ServiceHealthStatus_HEALTH_RED⟩ :=
  failed_database_first_offender_red { name := "svc" } none _
    { Databases := [none, some { Status := CONNECTED }, some { Status := FAILED },
        some { Status := CONNECTING }]
      Transports := [some { Status := CONNECTING }] }
    [none, some { Status := CONNECTED }] [some { Status := CONNECTING }] { Status := FAILED }
    rfl rfl rfl (by decide)

/-- C5: when every entry of the database, transport and security lists is
CONNECTED (nil entries and empty lists included), `BriefSrvsStatus` returns RED
if ProcessStatus is nil, RED if its State is one of "T", "I", "W", "Z", "L", and
GREEN for every other state string. -/
theorem all_connected_process_decides (h : Health) (bs : Option BriefStatusSummary)
    (ds : DetailedStatusSummary)
    (hall : ∀ e ∈ entryStatuses ds, e = none ∨ e = some CONNECTED) :
    (ds.ProcessStatus = none →
      BriefSrvsStatus (some h) (some ⟨bs, some ds⟩) =
        .ok ⟨h.name, ServiceHealthStatus_HEALTH_RED⟩) ∧
    (∀ p, ds.ProcessStatus = some p →
      (p.State = "T" ∨ p.State = "I" ∨ p.State = "W" ∨ p.State = "Z" ∨ p.State = "L") →
      BriefSrvsStatus (some h) (some ⟨bs, some ds⟩) =
        .ok ⟨h.name, ServiceHealthStatus_HEALTH_RED⟩) ∧
    (∀ p, ds.ProcessStatus = some p →
      ¬ (p.State = "T" ∨ p.State = "I" ∨ p.State = "W" ∨ p.State = "Z" ∨ p.State = "L") →
      BriefSrvsStatus (some h) (some ⟨bs, some ds⟩) =
        .ok ⟨h.name, ServiceHealthStatus_HEALTH_GREEN⟩) := by
  have hw : walkVerdict ds = processVerdict ds.ProcessStatus := by
    unfold walkVerdict
    rw [(firstOffender_none_iff _).2 hall]
  rw [BriefSrvsStatus_eq, hw]
  refine ⟨?_, ?_, ?_⟩
  · intro hp
    rw [hp]
    rfl
  · intro p hp hstate
    rw [hp]
    simp only [processVerdict, List.mem_cons, List.mem_singleton, List.not_mem_nil, or_false]
    rw [if_pos hstate]
  · intro p hp hstate
    rw [hp]
    simp only [processVerdict, List.mem_cons, List.mem_singleton, List.not_mem_nil, or_false]
    rw [if_neg hstate]

theorem all_connected_process_decides_witness :
    (∀ e ∈ entryStatuses scenarioB, e = none ∨ e = some CONNECTED) ∧
    BriefSrvsStatus (some { name := "svc" }) (some ⟨none, some scenarioB⟩) =
      .ok ⟨"svc", ServiceHealthStatus_HEALTH_GREEN⟩ ∧
    BriefSrvsStatus (some { name := "svc" }) (some ⟨none, some scenarioC⟩) =
      .ok ⟨"svc", ServiceHealthStatus_HEALTH_RED⟩ ∧
    BriefSrvsStatus (some { name := "svc" })
      (some ⟨none, some { scenarioB with ProcessStatus := some { State := "Z" } }⟩) =
      .ok ⟨"svc", ServiceHealthStatus_HEALTH_RED⟩ :=
  ⟨by decide,
   (all_connected_process_decides { name := "svc" } none scenarioB (by decide)).2.2
      { State := "R" } rfl (by decide),
   (all_connected_process_decides { name := "svc" } none scenarioC (by decide)).1 rfl,
   (all_connected_process_decides { name := "svc" } none
      { scenarioB with ProcessStatus := some { State := "Z" } } (by decide)).2.1
      { State := "Z" } rfl (by decide)⟩

/-- C6, as stated, fails: a DetailedStatus whose peripheral list is nil is not
rejected; with a running process the call succeeds with GREEN. -/
theorem nil_peripheral_list_counterexample :
    noPeripheralList.ConnectedPeripheral = none ∧
    BriefSrvsStatus (some { name := "svc" }) (some ⟨none, some noPeripheralList⟩) =
      .ok ⟨"svc", ServiceHealthStatus_HEALTH_GREEN⟩ ∧
    ¬ ∃ msg, BriefSrvsStatus (some { name := "svc" }) (some ⟨none, some noPeripheralList⟩) =
      .err msg := by
  refine ⟨rfl, by decide, ?_⟩
  rintro ⟨msg, hmsg⟩
  have hok : BriefSrvsStatus (some { name := "svc" }) (some ⟨none, some noPeripheralList⟩) =
      .ok ⟨"svc", ServiceHealthStatus_HEALTH_GREEN⟩ := by decide
  rw [hok] at hmsg
  cases hmsg

/-- C6 (amended): `BriefSrvsStatus` returns a failure (an error and no summary)
whenever the DetailedStatus it is given is nil; on a non-nil Health context it
fails only then: a DetailedStatus whose peripheral list is nil yields a summary,
the verdict being decided by the security list and the process status. -/
theorem nil_detailed_status_fails (hCtx : Option Health) (h : Health) (ms : MtsrvStatus) :
    (ms.DetailedStatus = none → ∃ msg, BriefSrvsStatus hCtx (some ms) = .err msg) ∧
    (ms.DetailedStatus = none →
      BriefSrvsStatus (some h) (some ms) = .err "DetailedStatus is nil") ∧
    ((∃ msg, BriefSrvsStatus (some h) (some ms) = .err msg) ↔ ms.DetailedStatus = none) ∧
    (∀ ds, ms.DetailedStatus = some ds → ds.ConnectedPeripheral = none →
      BriefSrvsStatus (some h) (some ms) = .ok ⟨h.name, referenceVerdict ds⟩ ∧
      entryStatuses ds = ds.Security.map (Option.map fun sec => sec.Status)) := by
  obtain ⟨bs, dso⟩ := ms
  have hnil : ∀ h' : Health, BriefSrvsStatus (some h') (some ⟨bs, none⟩) =
      .err "DetailedStatus is nil" := fun _ => rfl
  refine ⟨?_, ?_, ?_, ?_⟩
  · intro hds
    simp only at hds
    subst hds
    cases hCtx with
    | none => exact ⟨_, rfl⟩
    | some h' => exact ⟨_, hnil h'⟩
  · intro hds
    simp only at hds
    subst hds
    exact hnil h
  · constructor
    · rintro ⟨msg, hmsg⟩
      cases dso with
      | none => rfl
      | some ds =>
        rw [BriefSrvsStatus_eq] at hmsg
        cases hmsg
    · intro hds
      simp only at hds
      subst hds
      exact ⟨_, hnil h⟩
  · intro ds hds hcp
    simp only at hds
    subst hds
    refine ⟨?_, ?_⟩
    · rw [BriefSrvsStatus_eq]
      unfold walkVerdict referenceVerdict
      rw [firstOffender_eq_find]
    · unfold entryStatuses
      rw [hcp]
      rfl

theorem nil_detailed_status_fails_witness :
    BriefSrvsStatus none (some ⟨none, none⟩) = .err "health context is nil" ∧
    BriefSrvsStatus (some { name := "svc" }) (some ⟨none, none⟩) =
      .err "DetailedStatus is nil" ∧
    BriefSrvsStatus (some { name := "svc" }) (some ⟨none, some noPeripheralList⟩) =
      .ok ⟨"svc", referenceVerdict noPeripheralList⟩ :=
  ⟨by decide,
   (nil_detailed_status_fails none { name := "svc" } ⟨none, none⟩).2.1 rfl,
   ((nil_detailed_status_fails none { name := "svc" } ⟨none, some noPeripheralList⟩).2.2.2
      noPeripheralList rfl rfl).1⟩

/-! ## The detail builders: lemmas -/

theorem toInt64_ne_zero (n : Nat) (hn : n ≠ 0) (hu : IsU64 n) : toInt64 n ≠ 0 := by
  unfold IsU64 at hu
  unfold toInt64
  rw [Nat.mod_eq_of_lt hu]
  split <;> omega

theorem int64Div_of_count (a : Int) (n : Nat) (hn : n ≠ 0) (hu : IsU64 n) :
    int64Div a (toInt64 n) = some (wrapInt64 (Int.tdiv a (toInt64 n))) := by
  unfold int64Div
  rw [if_neg (toInt64_ne_zero n hn hu)]

theorem databaseAverages_eq (dbStat : DatabaseHealthStat) (d : PersistenceStatusDetail)
    (hr : IsU64 dbStat.TotalReadOp) (hw : IsU64 dbStat.TotalWriteOp) :
    databaseAverages dbStat d = .ok
      { d with
        AvgExecutionTimeOfReadOperations :=
          if dbStat.TotalReadOp ≠ 0 then
            wrapInt64 (Int.tdiv dbStat.TotalLatencyReadOp (toInt64 dbStat.TotalReadOp))
          else d.AvgExecutionTimeOfReadOperations
        AvgExecutionTimeOfWriteOperations :=
          if dbStat.TotalWriteOp ≠ 0 then
            wrapInt64 (Int.tdiv dbStat.TotalLatencyWriteOp (toInt64 dbStat.TotalWriteOp))
          else d.AvgExecutionTimeOfWriteOperations } := by
  unfold databaseAverages
  by_cases h₁ : dbStat.TotalReadOp = 0 <;> by_cases h₂ : dbStat.TotalWriteOp = 0
  · simp [h₁, h₂]
  · simp [h₁, h₂, int64Div_of_count _ _ h₂ hw]
  · simp [h₁, h₂, int64Div_of_count _ _ h₁ hr]
  · simp [h₁, h₂, int64Div_of_count _ _ h₁ hr, int64Div_of_count _ _ h₂ hw]

theorem transportAverages_eq (st : TransportHealthStat) (d : TransportBlockStatusDetail)
    (hq : IsU64 d.TotalSuccessfulRequestsInOneInterval)
    (hp : IsU64 d.TotalSuccessfulResponseInOneInterval) :
    transportAverages st d = .ok
      { d with
        AvgTimeToServeRequests :=
          if d.TotalSuccessfulRequestsInOneInterval ≠ 0 then
            wrapInt64 (Int.tdiv st.TotalTimeToSendMsgsInOneInterval
              (toInt64 d.TotalSuccessfulRequestsInOneInterval))
          else d.AvgTimeToServeRequests
        AvgTimeToServeResponse :=
          if d.TotalSuccessfulResponseInOneInterval ≠ 0 then
            wrapInt64 (Int.tdiv st.TotalTimeToReceiveMsgsInOneInterval
              (toInt64 d.TotalSuccessfulResponseInOneInterval))
          else d.AvgTimeToServeResponse } := by
  unfold transportAverages
  by_cases h₁ : d.TotalSuccessfulRequestsInOneInterval = 0 <;>
    by_cases h₂ : d.TotalSuccessfulResponseInOneInterval = 0
  · simp [h₁, h₂]
  · simp [h₁, h₂, int64Div_of_count _ _ h₂ hp]
  · simp [h₁, h₂, int64Div_of_count _ _ h₁ hq]
  · simp [h₁, h₂, int64Div_of_count _ _ h₁ hq, int64Div_of_count _ _ h₂ hp]

theorem DatabaseHealthDetail_eq (env : TimeEnv) (h : Health) (dbStat : DatabaseHealthStat)
    (hwt : dbStat.WellTyped) :
    DatabaseHealthDetail env (some h) (some dbStat) = .ok
      { databaseTotals dbStat (databaseConnectivity env dbStat {}) with
        AvgExecutionTimeOfReadOperations :=
          if dbStat.TotalReadOp ≠ 0 then
            wrapInt64 (Int.tdiv dbStat.TotalLatencyReadOp (toInt64 dbStat.TotalReadOp))
          else 0
        AvgExecutionTimeOfWriteOperations :=
          if dbStat.TotalWriteOp ≠ 0 then
            wrapInt64 (Int.tdiv dbStat.TotalLatencyWriteOp (toInt64 dbStat.TotalWriteOp))
          else 0 } := by
  obtain ⟨hr, hw, -⟩ := hwt
  unfold DatabaseHealthDetail
  simp only []
  rw [databaseAverages_eq _ _ hr hw]
  have h₁ : (databaseTotals dbStat
      (databaseConnectivity env dbStat {})).AvgExecutionTimeOfReadOperations = 0 := by
    unfold databaseTotals databaseConnectivity
    split <;> (try split) <;> rfl
  have h₂ : (databaseTotals dbStat
      (databaseConnectivity env dbStat {})).AvgExecutionTimeOfWriteOperations = 0 := by
    unfold databaseTotals databaseConnectivity
    split <;> (try split) <;> rfl
  rw [h₁, h₂]

theorem TransportHealthDetail_eq (env : TimeEnv) (h : Health) (st : TransportHealthStat)
    (hwt : st.WellTyped) :
    TransportHealthDetail env (some h) (some st) = .ok
      { transportTotals st (transportConnectivity env st {}) with
        AvgTimeToServeRequests :=
          if st.TotalTxInOneInterval.Value ≠ 0 then
            wrapInt64 (Int.tdiv st.TotalTimeToSendMsgsInOneInterval
              (toInt64 st.TotalTxInOneInterval.Value))
          else 0
        AvgTimeToServeResponse :=
          if st.TotalRxInOneInterval.Value ≠ 0 then
            wrapInt64 (Int.tdiv st.TotalTimeToReceiveMsgsInOneInterval
              (toInt64 st.TotalRxInOneInterval.Value))
          else 0 } := by
  obtain ⟨-, -, -, -, hrx, -, htx, -⟩ := hwt
  unfold TransportHealthDetail
  simp only []
  have hq : (transportTotals st
      (transportConnectivity env st {})).TotalSuccessfulRequestsInOneInterval =
        st.TotalTxInOneInterval.Value := rfl
  have hp : (transportTotals st
      (transportConnectivity env st {})).TotalSuccessfulResponseInOneInterval =
        st.TotalRxInOneInterval.Value := rfl
  rw [transportAverages_eq _ _ (by rw [hq]; exact htx) (by rw [hp]; exact hrx)]
  have h₁ : (transportTotals st (transportConnectivity env st {})).AvgTimeToServeRequests
      = 0 := by
    unfold transportTotals transportConnectivity
    split <;> (try split) <;> rfl
  have h₂ : (transportTotals st (transportConnectivity env st {})).AvgTimeToServeResponse
      = 0 := by
    unfold transportTotals transportConnectivity
    split <;> (try split) <;> rfl
  rw [h₁, h₂, hq, hp]

theorem database_status (env : TimeEnv) (dbStat : DatabaseHealthStat) :
    (databaseTotals dbStat (databaseConnectivity env dbStat {})).Status =
      if dbStat.IsConnected = true then
        if dbStat.TotalUnsuccessfulReadOp = 0 ∧ dbStat.TotalUnsuccessfulWriteOp = 0 then
          CONNECTED
        else CONNECTING
      else FAILED := by
  unfold databaseTotals databaseConnectivity
  split <;> (try split) <;> rfl

theorem transport_status (env : TimeEnv) (st : TransportHealthStat) :
    (transportTotals st (transportConnectivity env st {})).Status =
      if st.IsConnected = true then
        if st.TotalTxErrInOneInterval.Value = 0 ∧ st.TotalRxErrInOneInterval.Value = 0 then
          CONNECTED
        else CONNECTING
      else FAILED := by
  unfold transportTotals transportConnectivity
  split <;> (try split) <;> rfl

theorem security_status (env : TimeEnv) (st : SecurityStackHealthStat) :
    (securityTotals st (securityConnectivity env st {})).Status =
      if st.IsConnected = true then
        if st.TotalUnsuccessfulEncryption.Value = 0 ∧
            st.TotalUnsuccessfulDecryption.Value = 0 then
          CONNECTED
        else CONNECTING
      else FAILED := by
  unfold securityTotals securityConnectivity
  split <;> (try split) <;> rfl

/-! ## The detail builders: theorems -/

/-- C7: on a non-nil context, `DatabaseHealthDetail` and
`SecurityStackHealthDetail` succeed and report FAILED when IsConnected is false
whatever the counters are, CONNECTED when IsConnected is true and both
unsuccessful-operation counters are zero, and CONNECTING when IsConnected is
true and at least one of the two is nonzero. -/
theorem db_and_security_status_invariant (env : TimeEnv) (h : Health)
    (db : DatabaseHealthStat) (sec : SecurityStackHealthStat) (hdb : db.WellTyped) :
    (∃ d, DatabaseHealthDetail env (some h) (some db) = .ok d ∧
      (db.IsConnected = false → d.Status = FAILED) ∧
      (db.IsConnected = true → db.TotalUnsuccessfulReadOp = 0 →
        db.TotalUnsuccessfulWriteOp = 0 → d.Status = CONNECTED) ∧
      (db.IsConnected = true →
        (db.TotalUnsuccessfulReadOp ≠ 0 ∨ db.TotalUnsuccessfulWriteOp ≠ 0) →
        d.Status = CONNECTING)) ∧
    (∃ d, SecurityStackHealthDetail env (some h) (some sec) = .ok d ∧
      (sec.IsConnected = false → d.Status = FAILED) ∧
      (sec.IsConnected = true → sec.TotalUnsuccessfulEncryption.Value = 0 →
        sec.TotalUnsuccessfulDecryption.Value = 0 → d.Status = CONNECTED) ∧
      (sec.IsConnected = true →
        (sec.TotalUnsuccessfulEncryption.Value ≠ 0 ∨
          sec.TotalUnsuccessfulDecryption.Value ≠ 0) →
        d.Status = CONNECTING)) := by
  constructor
  · refine ⟨_, DatabaseHealthDetail_eq env h db hdb, ?_, ?_, ?_⟩
    · intro hc
      show (databaseTotals db (databaseConnectivity env db {})).Status = FAILED
      rw [database_status, hc]
      rfl
    · intro hc hr hw
      show (databaseTotals db (databaseConnectivity env db {})).Status = CONNECTED
      rw [database_status, if_pos hc, if_pos ⟨hr, hw⟩]
    · intro hc hne
      show (databaseTotals db (databaseConnectivity env db {})).Status = CONNECTING
      rw [database_status, if_pos hc, if_neg]
      rintro ⟨hr, hw⟩
      rcases hne with hne | hne
      · exact hne hr
      · exact hne hw
  · refine ⟨_, rfl, ?_, ?_, ?_⟩
    · intro hc
      rw [security_status, hc]
      rfl
    · intro hc hr hw
      rw [security_status, if_pos hc, if_pos ⟨hr, hw⟩]
    · intro hc hne
      rw [security_status, if_pos hc, if_neg]
      rintro ⟨hr, hw⟩
      rcases hne with hne | hne
      · exact hne hr
      · exact hne hw

theorem db_and_security_status_invariant_witness :
    degradedDatabase.WellTyped ∧
    (∃ d, DatabaseHealthDetail sampleEnv (some { name := "svc" }) (some degradedDatabase) =
      .ok d ∧ d.Status = CONNECTING) ∧
    (∃ d, SecurityStackHealthDetail sampleEnv (some { name := "svc" })
      (some degradedSecurity) = .ok d ∧ d.Status = CONNECTING) := by
  obtain ⟨⟨d, hd, -, -, hdc⟩, ⟨e, he, -, -, hec⟩⟩ :=
    db_and_security_status_invariant sampleEnv { name := "svc" } degradedDatabase
      degradedSecurity (by decide)
  exact ⟨by decide, ⟨d, hd, hdc rfl (Or.inl (by decide))⟩,
    ⟨e, he, hec rfl (Or.inr (by decide))⟩⟩

/-- C8, as stated, fails: a connected transport whose lifetime error counters
TotalTxErr and TotalRxErr are nonzero, with both per-interval error counters at
zero, is reported CONNECTED, not CONNECTING. -/
theorem lifetime_errors_counterexample :
    lifetimeErrorsOnly.IsConnected = true ∧
    lifetimeErrorsOnly.TotalTxErr.Value ≠ 0 ∧
    ∃ d, TransportHealthDetail sampleEnv (some { name := "svc" }) (some lifetimeErrorsOnly) =
      .ok d ∧ d.Status = CONNECTED ∧ d.Status ≠ CONNECTING := by
  refine ⟨rfl, by decide, _,
    TransportHealthDetail_eq sampleEnv { name := "svc" } lifetimeErrorsOnly (by decide), ?_, ?_⟩
  · rfl
  · decide

/-- C8 (amended): for every TransportHealthStat with IsConnected = true in which at
least one of the per-interval error counters TotalTxErrInOneInterval,
TotalRxErrInOneInterval is nonzero, `TransportHealthDetail` reports CONNECTING. -/
theorem interval_errors_connecting (env : TimeEnv) (h : Health) (st : TransportHealthStat)
    (hwt : st.WellTyped) (hc : st.IsConnected = true)
    (herr : st.TotalTxErrInOneInterval.Value ≠ 0 ∨ st.TotalRxErrInOneInterval.Value ≠ 0) :
    ∃ d, TransportHealthDetail env (some h) (some st) = .ok d ∧ d.Status = CONNECTING := by
  refine ⟨_, TransportHealthDetail_eq env h st hwt, ?_⟩
  show (transportTotals st (transportConnectivity env st {})).Status = CONNECTING
  rw [transport_status, if_pos hc, if_neg]
  rintro ⟨htx, hrx⟩
  rcases herr with herr | herr
  · exact herr htx
  · exact herr hrx

theorem interval_errors_connecting_witness :
    intervalErrors.WellTyped ∧ intervalErrors.IsConnected = true ∧
    intervalErrors.TotalTxErrInOneInterval.Value ≠ 0 ∧
    ∃ d, TransportHealthDetail sampleEnv (some { name := "svc" }) (some intervalErrors) =
      .ok d ∧ d.Status = CONNECTING :=
  ⟨by decide, rfl, by decide,
   interval_errors_connecting sampleEnv { name := "svc" } intervalErrors (by decide) rfl
     (Or.inl (by decide))⟩

/-- C9: each of `TransportHealthDetail`, `DatabaseHealthDetail` and
`SecurityStackHealthDetail`, given a non-nil stat snapshot, fails (an error and
no detail) if and only if the Health context is nil: a nil context gives the
error "Health context is nil", a non-nil context gives a detail and no error. -/
theorem builders_fail_iff_nil_context (env : TimeEnv) (hCtx : Option Health)
    (tr : TransportHealthStat) (db : DatabaseHealthStat) (sec : SecurityStackHealthStat)
    (htr : tr.WellTyped) (hdb : db.WellTyped) :
    ((∃ msg, TransportHealthDetail env hCtx (some tr) = .err msg) ↔ hCtx = none) ∧
    ((∃ msg, DatabaseHealthDetail env hCtx (some db) = .err msg) ↔ hCtx = none) ∧
    ((∃ msg, SecurityStackHealthDetail env hCtx (some sec) = .err msg) ↔ hCtx = none) ∧
    (hCtx = none →
      TransportHealthDetail env hCtx (some tr) = .err "Health context is nil" ∧
      DatabaseHealthDetail env hCtx (some db) = .err "Health context is nil" ∧
      SecurityStackHealthDetail env hCtx (some sec) = .err "Health context is nil") ∧
    (hCtx ≠ none →
      (∃ d, TransportHealthDetail env hCtx (some tr) = .ok d) ∧
      (∃ d, DatabaseHealthDetail env hCtx (some db) = .ok d) ∧
      (∃ d, SecurityStackHealthDetail env hCtx (some sec) = .ok d)) := by
  cases hCtx with
  | none =>
    refine ⟨⟨fun _ => rfl, fun _ => ⟨_, rfl⟩⟩, ⟨fun _ => rfl, fun _ => ⟨_, rfl⟩⟩,
      ⟨fun _ => rfl, fun _ => ⟨_, rfl⟩⟩, fun _ => ⟨rfl, rfl, rfl⟩, fun hne => absurd rfl hne⟩
  | some h =>
    have ht := TransportHealthDetail_eq env h tr htr
    have hd := DatabaseHealthDetail_eq env h db hdb
    have hs : SecurityStackHealthDetail env (some h) (some sec) =
        .ok (securityTotals sec (securityConnectivity env sec {})) := rfl
    refine ⟨⟨?_, fun hn => (by cases hn)⟩, ⟨?_, fun hn => (by cases hn)⟩,
      ⟨?_, fun hn => (by cases hn)⟩, fun hn => (by cases hn),
      fun _ => ⟨⟨_, ht⟩, ⟨_, hd⟩, ⟨_, hs⟩⟩⟩
    · rintro ⟨msg, hmsg⟩
      rw [ht] at hmsg
      cases hmsg
    · rintro ⟨msg, hmsg⟩
      rw [hd] at hmsg
      cases hmsg
    · rintro ⟨msg, hmsg⟩
      rw [hs] at hmsg
      cases hmsg

theorem builders_fail_iff_nil_context_witness :
    intervalErrors.WellTyped ∧ degradedDatabase.WellTyped ∧
    (TransportHealthDetail sampleEnv none (some intervalErrors) =
        .err "Health context is nil" ∧
      DatabaseHealthDetail sampleEnv none (some degradedDatabase) =
        .err "Health context is nil" ∧
      SecurityStackHealthDetail sampleEnv none (some degradedSecurity) =
        .err "Health context is nil") ∧
    ((∃ d, TransportHealthDetail sampleEnv (some { name := "svc" }) (some intervalErrors) =
        .ok d) ∧
      (∃ d, DatabaseHealthDetail sampleEnv (some { name := "svc" }) (some degradedDatabase) =
        .ok d) ∧
      (∃ d, SecurityStackHealthDetail sampleEnv (some { name := "svc" })
        (some degradedSecurity) = .ok d)) :=
  ⟨by decide, by decide,
   (builders_fail_iff_nil_context sampleEnv none intervalErrors degradedDatabase
      degradedSecurity (by decide) (by decide)).2.2.2.1 rfl,
   (builders_fail_iff_nil_context sampleEnv (some { name := "svc" }) intervalErrors
      degradedDatabase degradedSecurity (by decide) (by decide)).2.2.2.2 (by simp)⟩

/-- C10: for every stat whose relevant operation count is zero the builder
succeeds and the corresponding average is 0 whatever the latency total is
(read and write averages of `DatabaseHealthDetail`, request and response
averages of `TransportHealthDetail`); and no stat makes a builder divide by
zero, on any context. -/
theorem zero_count_average_zero (env : TimeEnv) (hCtx : Option Health) (h : Health)
    (db : DatabaseHealthStat) (tr : TransportHealthStat) (sec : SecurityStackHealthStat)
    (hdb : db.WellTyped) (htr : tr.WellTyped) :
    (∃ d, DatabaseHealthDetail env (some h) (some db) = .ok d ∧
      (db.TotalReadOp = 0 → d.AvgExecutionTimeOfReadOperations = 0) ∧
      (db.TotalWriteOp = 0 → d.AvgExecutionTimeOfWriteOperations = 0)) ∧
    (∃ d, TransportHealthDetail env (some h) (some tr) = .ok d ∧
      (tr.TotalTxInOneInterval.Value = 0 → d.AvgTimeToServeRequests = 0) ∧
      (tr.TotalRxInOneInterval.Value = 0 → d.AvgTimeToServeResponse = 0)) ∧
    DatabaseHealthDetail env hCtx (some db) ≠ .panic ∧
    TransportHealthDetail env hCtx (some tr) ≠ .panic ∧
    SecurityStackHealthDetail env hCtx (some sec) ≠ .panic := by
  refine ⟨⟨_, DatabaseHealthDetail_eq env h db hdb, ?_, ?_⟩,
    ⟨_, TransportHealthDetail_eq env h tr htr, ?_, ?_⟩, ?_, ?_, ?_⟩
  · intro h0
    simp [h0]
  · intro h0
    simp [h0]
  · intro h0
    simp [h0]
  · intro h0
    simp [h0]
  · cases hCtx with
    | none => intro hp; cases hp
    | some h' => rw [DatabaseHealthDetail_eq env h' db hdb]; intro hp; cases hp
  · cases hCtx with
    | none => intro hp; cases hp
    | some h' => rw [TransportHealthDetail_eq env h' tr htr]; intro hp; cases hp
  · cases hCtx with
    | none => intro hp; cases hp
    | some h' => intro hp; cases hp

theorem zero_count_average_zero_witness :
    degradedDatabase.WellTyped ∧ intervalErrors.WellTyped ∧
    degradedDatabase.TotalWriteOp = 0 ∧ degradedDatabase.TotalLatencyWriteOp = 77 ∧
    intervalErrors.TotalTxInOneInterval.Value = 0 ∧
    intervalErrors.TotalTimeToSendMsgsInOneInterval = 900 ∧
    (∃ d, DatabaseHealthDetail sampleEnv (some { name := "svc" }) (some degradedDatabase) =
      .ok d ∧ d.AvgExecutionTimeOfWriteOperations = 0) ∧
    (∃ d, TransportHealthDetail sampleEnv (some { name := "svc" }) (some intervalErrors) =
      .ok d ∧ d.AvgTimeToServeRequests = 0) := by
  obtain ⟨⟨d, hd, -, hdw⟩, ⟨t, ht, htq, -⟩, -⟩ :=
    zero_count_average_zero sampleEnv none { name := "svc" } degradedDatabase intervalErrors
      degradedSecurity (by decide) (by decide)
  exact ⟨by decide, by decide, rfl, rfl, rfl, rfl, ⟨d, hd, hdw rfl⟩, ⟨t, ht, htq rfl⟩⟩

/-! ## The averages -/

theorem toInt64_of_small (n : Nat) (hn : n < 2 ^ 63) : toInt64 n = (n : Int) := by
  unfold toInt64
  have h64 : n % 2 ^ 64 = n := Nat.mod_eq_of_lt (by omega)
  rw [h64, if_pos hn]

theorem wrapInt64_of_isI64 (i : Int) (hi : IsI64 i) : wrapInt64 i = i := by
  obtain ⟨hlo, hhi⟩ := hi
  unfold wrapInt64
  rw [Int.emod_eq_of_lt (by omega) (by omega)]
  omega

theorem tdiv_between (L c : Int) (hc : 0 < c) :
    (0 ≤ L → 0 ≤ Int.tdiv L c ∧ Int.tdiv L c ≤ L) ∧
    (L ≤ 0 → L ≤ Int.tdiv L c ∧ Int.tdiv L c ≤ 0) := by
  have hpos : ∀ a : Int, 0 ≤ a → 0 ≤ Int.tdiv a c ∧ Int.tdiv a c ≤ a := by
    intro a ha
    rw [Int.tdiv_eq_ediv ha (le_of_lt hc)]
    exact ⟨Int.ediv_nonneg ha (le_of_lt hc), Int.ediv_le_self c ha⟩
  refine ⟨hpos L, ?_⟩
  intro hL
  have h := hpos (-L) (by omega)
  rw [Int.neg_tdiv] at h
  omega

theorem average_of_small_count (L : Int) (c : Nat) (hL : IsI64 L) (hc0 : c ≠ 0)
    (hc : c < 2 ^ 63) : wrapInt64 (Int.tdiv L (toInt64 c)) = Int.tdiv L (c : Int) := by
  rw [toInt64_of_small c hc]
  apply wrapInt64_of_isI64
  obtain ⟨hlo, hhi⟩ := hL
  have hb := tdiv_between L (c : Int) (by omega)
  unfold IsI64
  rcases le_total 0 L with h | h
  · have := hb.1 h
    omega
  · have := hb.2 h
    omega

/-- For operation counts from 1 to 2^63 - 1 the four averages are the quotients
of the latency total by the count, truncated toward zero. -/
theorem averages_of_small_counts (env : TimeEnv) (h : Health) (db : DatabaseHealthStat)
    (tr : TransportHealthStat) (hdb : db.WellTyped) (htr : tr.WellTyped) :
    (∃ d, DatabaseHealthDetail env (some h) (some db) = .ok d ∧
      (db.TotalReadOp ≠ 0 → db.TotalReadOp < 2 ^ 63 →
        d.AvgExecutionTimeOfReadOperations =
          Int.tdiv db.TotalLatencyReadOp (db.TotalReadOp : Int)) ∧
      (db.TotalWriteOp ≠ 0 → db.TotalWriteOp < 2 ^ 63 →
        d.AvgExecutionTimeOfWriteOperations =
          Int.tdiv db.TotalLatencyWriteOp (db.TotalWriteOp : Int))) ∧
    (∃ d, TransportHealthDetail env (some h) (some tr) = .ok d ∧
      (tr.TotalTxInOneInterval.Value ≠ 0 → tr.TotalTxInOneInterval.Value < 2 ^ 63 →
        d.AvgTimeToServeRequests =
          Int.tdiv tr.TotalTimeToSendMsgsInOneInterval (tr.TotalTxInOneInterval.Value : Int)) ∧
      (tr.TotalRxInOneInterval.Value ≠ 0 → tr.TotalRxInOneInterval.Value < 2 ^ 63 →
        d.AvgTimeToServeResponse =
          Int.tdiv tr.TotalTimeToReceiveMsgsInOneInterval
            (tr.TotalRxInOneInterval.Value : Int))) := by
  have hdb' := hdb
  have htr' := htr
  obtain ⟨-, -, -, -, hLr, hLw⟩ := hdb'
  obtain ⟨-, -, -, -, -, -, -, -, hLs, hLv⟩ := htr'
  refine ⟨⟨_, DatabaseHealthDetail_eq env h db hdb, ?_, ?_⟩,
    ⟨_, TransportHealthDetail_eq env h tr htr, ?_, ?_⟩⟩
  · intro h0 hlt
    show (if db.TotalReadOp ≠ 0 then _ else _) = _
    rw [if_pos h0, average_of_small_count _ _ hLr h0 hlt]
  · intro h0 hlt
    show (if db.TotalWriteOp ≠ 0 then _ else _) = _
    rw [if_pos h0, average_of_small_count _ _ hLw h0 hlt]
  · intro h0 hlt
    show (if tr.TotalTxInOneInterval.Value ≠ 0 then _ else _) = _
    rw [if_pos h0, average_of_small_count _ _ hLs h0 hlt]
  · intro h0 hlt
    show (if tr.TotalRxInOneInterval.Value ≠ 0 then _ else _) = _
    rw [if_pos h0, average_of_small_count _ _ hLv h0 hlt]

/-- C11: the code at counts of 2^63 and above. With a read count of 2^64 - 1 and a
read latency total of 10 the quotient truncated toward zero is 0, and
`DatabaseHealthDetail` reports -10; with a per-interval receive count of 2^63
and a receive time total of -(2^63) the quotient is -1, and
`TransportHealthDetail` reports 1. -/
theorem average_of_large_count_diverges :
    overflowDatabase.WellTyped ∧
    overflowDatabase.TotalReadOp = 2 ^ 64 - 1 ∧
    overflowDatabase.TotalLatencyReadOp = 10 ∧
    Int.tdiv overflowDatabase.TotalLatencyReadOp (overflowDatabase.TotalReadOp : Int) = 0 ∧
    (∃ d, DatabaseHealthDetail sampleEnv (some { name := "svc" }) (some overflowDatabase) =
      .ok d ∧ d.AvgExecutionTimeOfReadOperations = -10) ∧
    overflowTransport.WellTyped ∧
    overflowTransport.TotalRxInOneInterval.Value = 2 ^ 63 ∧
    overflowTransport.TotalTimeToReceiveMsgsInOneInterval = -(2 ^ 63) ∧
    Int.tdiv overflowTransport.TotalTimeToReceiveMsgsInOneInterval
      (overflowTransport.TotalRxInOneInterval.Value : Int) = -1 ∧
    (∃ d, TransportHealthDetail sampleEnv (some { name := "svc" }) (some overflowTransport) =
      .ok d ∧ d.AvgTimeToServeResponse = 1) := by
  refine ⟨by decide, rfl, rfl, by decide,
    ⟨_, DatabaseHealthDetail_eq sampleEnv { name := "svc" } overflowDatabase (by decide), ?_⟩,
    by decide, rfl, rfl, by decide,
    ⟨_, TransportHealthDetail_eq sampleEnv { name := "svc" } overflowTransport (by decide), ?_⟩⟩
  · decide
  · decide

/-! ## The detail builders: totals, up time and error string -/

/-- C12: for every TransportHealthStat, `TransportHealthDetail` reports the
successful and unsuccessful request and response fields equal to the
corresponding counters (lifetime and per-interval) and each total equal to the
sum of its two counters in unsigned 64-bit arithmetic, whatever the connection
status is. -/
theorem transport_totals_are_sums (env : TimeEnv) (h : Health) (st : TransportHealthStat)
    (hwt : st.WellTyped) :
    ∃ d, TransportHealthDetail env (some h) (some st) = .ok d ∧
      d.TotalSuccessfulRequests = st.TotalTx.Value ∧
      d.TotalUnsuccessfulRequests = st.TotalTxErr.Value ∧
      d.TotalSuccessfulResponse = st.TotalRx.Value ∧
      d.TotalUnsuccessfulResponse = st.TotalRxErr.Value ∧
      d.TotalSuccessfulRequestsInOneInterval = st.TotalTxInOneInterval.Value ∧
      d.TotalUnsuccessfulRequestsInOneInterval = st.TotalTxErrInOneInterval.Value ∧
      d.TotalSuccessfulResponseInOneInterval = st.TotalRxInOneInterval.Value ∧
      d.TotalUnsuccessfulResponseInOneInterval = st.TotalRxErrInOneInterval.Value ∧
      d.TotalRequests = (st.TotalTx.Value + st.TotalTxErr.Value) % 2 ^ 64 ∧
      d.TotalResponse = (st.TotalRx.Value + st.TotalRxErr.Value) % 2 ^ 64 ∧
      d.TotalRequestsInOneInterval =
        (st.TotalTxInOneInterval.Value + st.TotalTxErrInOneInterval.Value) % 2 ^ 64 ∧
      d.TotalResponseInOneInterval =
        (st.TotalRxInOneInterval.Value + st.TotalRxErrInOneInterval.Value) % 2 ^ 64 :=
  ⟨_, TransportHealthDetail_eq env h st hwt, rfl, rfl, rfl, rfl, rfl, rfl, rfl, rfl, rfl, rfl,
    rfl, rfl⟩

theorem transport_totals_are_sums_witness :
    healthyTransport.WellTyped ∧
    ∃ d, TransportHealthDetail sampleEnv (some { name := "svc" }) (some healthyTransport) =
      .ok d ∧ d.TotalRequests = 42 ∧ d.TotalResponse = 2 ∧
      d.TotalRequestsInOneInterval = 4 ∧ d.TotalResponseInOneInterval = 6 := by
  obtain ⟨d, hd, -, -, -, -, -, -, -, -, h₁, h₂, h₃, h₄⟩ :=
    transport_totals_are_sums sampleEnv { name := "svc" } healthyTransport (by decide)
  exact ⟨by decide, d, hd, h₁, h₂, h₃, h₄⟩

theorem database_connectivity_cases (env : TimeEnv) (db : DatabaseHealthStat) :
    ((databaseTotals db (databaseConnectivity env db {})).Status = CONNECTED ∧
      (databaseTotals db (databaseConnectivity env db {})).UpTime =
        env.durationString (env.since db.InitializationTime) ∧
      (databaseTotals db (databaseConnectivity env db {})).Error = "") ∨
    ((databaseTotals db (databaseConnectivity env db {})).Status = CONNECTING ∧
      (databaseTotals db (databaseConnectivity env db {})).UpTime = zeroTimeString ∧
      (databaseTotals db (databaseConnectivity env db {})).Error =
        "Total Unsuccessful Read Operation Is " ++ toString db.TotalUnsuccessfulReadOp ++
          ", Total Unsuccessful Write Operation Is " ++
          toString db.TotalUnsuccessfulWriteOp ++ " ") ∨
    ((databaseTotals db (databaseConnectivity env db {})).Status = FAILED ∧
      (databaseTotals db (databaseConnectivity env db {})).UpTime = zeroTimeString ∧
      (databaseTotals db (databaseConnectivity env db {})).Error = db.Error.getD "") := by
  unfold databaseTotals databaseConnectivity
  by_cases hc : db.IsConnected = true
  · by_cases hz : db.TotalUnsuccessfulReadOp = 0 ∧ db.TotalUnsuccessfulWriteOp = 0
    · left
      simp only [hc, hz, if_true, and_self]
    · right; left
      rw [if_pos hc, if_neg hz]
      exact ⟨rfl, rfl, rfl⟩
  · right; right
    rw [if_neg hc]
    cases db.Error with
    | none => exact ⟨rfl, rfl, rfl⟩
    | some msg => exact ⟨rfl, rfl, rfl⟩

theorem transport_connectivity_cases (env : TimeEnv) (st : TransportHealthStat) :
    ((transportTotals st (transportConnectivity env st {})).Status = CONNECTED ∧
      (transportTotals st (transportConnectivity env st {})).UpTime =
        env.durationString (env.since st.InitializationTime) ∧
      (transportTotals st (transportConnectivity env st {})).Error = "") ∨
    ((transportTotals st (transportConnectivity env st {})).Status = CONNECTING ∧
      (transportTotals st (transportConnectivity env st {})).UpTime = zeroTimeString ∧
      (transportTotals st (transportConnectivity env st {})).Error =
        "TotalTx Err In One Interval Is " ++ toString st.TotalTxErrInOneInterval.Value ++
          ", TotalRx Err In One Interval Is " ++
          toString st.TotalRxErrInOneInterval.Value ++ " ") ∨
    ((transportTotals st (transportConnectivity env st {})).Status = FAILED ∧
      (transportTotals st (transportConnectivity env st {})).UpTime = zeroTimeString ∧
      (transportTotals st (transportConnectivity env st {})).Error = st.Error.getD "") := by
  unfold transportTotals transportConnectivity
  by_cases hc : st.IsConnected = true
  · by_cases hz : st.TotalTxErrInOneInterval.Value = 0 ∧ st.TotalRxErrInOneInterval.Value = 0
    · left
      rw [if_pos hc, if_pos hz]
      exact ⟨rfl, rfl, rfl⟩
    · right; left
      rw [if_pos hc, if_neg hz]
      exact ⟨rfl, rfl, rfl⟩
  · right; right
    rw [if_neg hc]
    cases st.Error with
    | none => exact ⟨rfl, rfl, rfl⟩
    | some msg => exact ⟨rfl, rfl, rfl⟩

theorem security_connectivity_cases (env : TimeEnv) (st : SecurityStackHealthStat) :
    ((securityTotals st (securityConnectivity env st {})).Status = CONNECTED ∧
      (securityTotals st (securityConnectivity env st {})).UpTime =
        env.durationString (env.since st.InitializationTime) ∧
      (securityTotals st (securityConnectivity env st {})).Error = "") ∨
    ((securityTotals st (securityConnectivity env st {})).Status = CONNECTING ∧
      (securityTotals st (securityConnectivity env st {})).UpTime = zeroTimeString ∧
      (securityTotals st (securityConnectivity env st {})).Error =
        "Total Unsuccessful Encryption Operation Is " ++
          toString st.TotalUnsuccessfulEncryption.Value ++
          ", Total Unsuccessful Decryption Operation Is " ++
          toString st.TotalUnsuccessfulDecryption.Value ++ " ") ∨
    ((securityTotals st (securityConnectivity env st {})).Status = FAILED ∧
      (securityTotals st (securityConnectivity env st {})).UpTime = zeroTimeString ∧
      (securityTotals st (securityConnectivity env st {})).Error = st.Error.getD "") := by
  unfold securityTotals securityConnectivity
  by_cases hc : st.IsConnected = true
  · by_cases hz : st.TotalUnsuccessfulEncryption.Value = 0 ∧
        st.TotalUnsuccessfulDecryption.Value = 0
    · left
      rw [if_pos hc, if_pos hz]
      exact ⟨rfl, rfl, rfl⟩
    · right; left
      rw [if_pos hc, if_neg hz]
      exact ⟨rfl, rfl, rfl⟩
  · right; right
    rw [if_neg hc]
    cases st.Error with
    | none => exact ⟨rfl, rfl, rfl⟩
    | some msg => exact ⟨rfl, rfl, rfl⟩

theorem since_eq_sub (env : TimeEnv) (t : Time) (hfit : IsI64 (env.now - t)) :
    env.since t = env.now - t := by
  obtain ⟨hlo, hhi⟩ := hfit
  unfold TimeEnv.since clampInt64
  rw [if_neg (by omega), if_neg (by omega)]

theorem uptime_of_cases {status : PeripheralStatusType} {up : String} {err e₁ e₂ : String}
    (t : String)
    (hcases : (status = CONNECTED ∧ up = t ∧ err = "") ∨
      (status = CONNECTING ∧ up = zeroTimeString ∧ err = e₁) ∨
      (status = FAILED ∧ up = zeroTimeString ∧ err = e₂)) :
    (status = CONNECTED → up = t) ∧ (status ≠ CONNECTED → up = zeroTimeString) := by
  rcases hcases with ⟨hs, hu, -⟩ | ⟨hs, hu, -⟩ | ⟨hs, hu, -⟩
  · exact ⟨fun _ => hu, fun hne => absurd hs hne⟩
  · exact ⟨fun hc => absurd (hs.symm.trans hc) (by decide), fun _ => hu⟩
  · exact ⟨fun hc => absurd (hs.symm.trans hc) (by decide), fun _ => hu⟩

theorem error_of_cases {status : PeripheralStatusType} {up : String} {err e₁ e₂ : String}
    (t : String)
    (hcases : (status = CONNECTED ∧ up = t ∧ err = "") ∨
      (status = CONNECTING ∧ up = zeroTimeString ∧ err = e₁) ∨
      (status = FAILED ∧ up = zeroTimeString ∧ err = e₂)) :
    (status = FAILED → err = e₂) ∧ (status = CONNECTING → err = e₁) ∧
    (status = CONNECTED → err = "") := by
  rcases hcases with ⟨hs, -, he⟩ | ⟨hs, -, he⟩ | ⟨hs, -, he⟩
  · exact ⟨fun hc => absurd (hs.symm.trans hc) (by decide),
      fun hc => absurd (hs.symm.trans hc) (by decide), fun _ => he⟩
  · exact ⟨fun hc => absurd (hs.symm.trans hc) (by decide), fun _ => he,
      fun hc => absurd (hs.symm.trans hc) (by decide)⟩
  · exact ⟨fun _ => he, fun hc => absurd (hs.symm.trans hc) (by decide),
      fun hc => absurd (hs.symm.trans hc) (by decide)⟩

/-- C13: for each of the three detail builders, with the clock reading `env.now`
at the call, UpTime is the rendering of the duration since InitializationTime
(`now - InitializationTime` whenever that fits a duration) when the reported
status is CONNECTED, and the rendering of the zero-value time,
"0001-01-01 00:00:00 +0000 UTC", when it is not, whatever InitializationTime
is. -/
theorem uptime_by_status (env : TimeEnv) (h : Health) (tr : TransportHealthStat)
    (db : DatabaseHealthStat) (sec : SecurityStackHealthStat)
    (htr : tr.WellTyped) (hdb : db.WellTyped) :
    (∃ d, TransportHealthDetail env (some h) (some tr) = .ok d ∧
      (d.Status = CONNECTED →
        d.UpTime = env.durationString (env.since tr.InitializationTime)) ∧
      (d.Status ≠ CONNECTED → d.UpTime = zeroTimeString)) ∧
    (∃ d, DatabaseHealthDetail env (some h) (some db) = .ok d ∧
      (d.Status = CONNECTED →
        d.UpTime = env.durationString (env.since db.InitializationTime)) ∧
      (d.Status ≠ CONNECTED → d.UpTime = zeroTimeString)) ∧
    (∃ d, SecurityStackHealthDetail env (some h) (some sec) = .ok d ∧
      (d.Status = CONNECTED →
        d.UpTime = env.durationString (env.since sec.InitializationTime)) ∧
      (d.Status ≠ CONNECTED → d.UpTime = zeroTimeString)) ∧
    zeroTimeString = "0001-01-01 00:00:00 +0000 UTC" ∧
    (∀ t : Time, IsI64 (env.now - t) → env.since t = env.now - t) := by
  refine ⟨⟨_, TransportHealthDetail_eq env h tr htr, ?_⟩,
    ⟨_, DatabaseHealthDetail_eq env h db hdb, ?_⟩, ⟨_, rfl, ?_⟩, rfl, since_eq_sub env⟩
  · exact uptime_of_cases _ (transport_connectivity_cases env tr)
  · exact uptime_of_cases _ (database_connectivity_cases env db)
  · exact uptime_of_cases _ (security_connectivity_cases env sec)

theorem uptime_by_status_witness :
    intervalErrors.WellTyped ∧ healthyDatabase.WellTyped ∧
    (∃ d, TransportHealthDetail sampleEnv (some boundHealth) (some intervalErrors) = .ok d ∧
      d.Status = CONNECTING ∧ d.UpTime = "0001-01-01 00:00:00 +0000 UTC") ∧
    (∃ d, DatabaseHealthDetail sampleEnv (some boundHealth) (some healthyDatabase) = .ok d ∧
      d.Status = CONNECTED ∧ d.UpTime = sampleEnv.durationString (1000 - 400) ∧
      d.UpTime = "600ns") ∧
    (∃ d, SecurityStackHealthDetail sampleEnv (some boundHealth) (some failedSecurity) =
      .ok d ∧ d.Status = FAILED ∧ d.UpTime = "0001-01-01 00:00:00 +0000 UTC") := by
  obtain ⟨⟨t, ht, -, htz⟩, ⟨d, hd, hdu, -⟩, ⟨e, he, -, hez⟩, -, -⟩ :=
    uptime_by_status sampleEnv boundHealth intervalErrors healthyDatabase failedSecurity
      (by decide) (by decide)
  have hts : t.Status = CONNECTING := by
    rw [TransportHealthDetail_eq _ _ _ (by decide)] at ht
    cases ht
    rfl
  have hds : d.Status = CONNECTED := by
    rw [DatabaseHealthDetail_eq _ _ _ (by decide)] at hd
    cases hd
    rfl
  have hes : e.Status = FAILED := by
    cases he
    rfl
  refine ⟨by decide, by decide, ⟨t, ht, hts, htz (by rw [hts]; decide)⟩,
    ⟨d, hd, hds, hdu hds, ?_⟩, ⟨e, he, hes, hez (by rw [hes]; decide)⟩⟩
  rw [hdu hds]
  decide

/-- C14: for each of the three detail builders the Error string follows the
reported status: when FAILED it is the message of the peripheral's last error,
or empty without a last error; when CONNECTING it is the formatted counts
message carrying the two error counters that decided the status; when CONNECTED
it is empty, even if the stat carries a last error. -/
theorem error_string_by_status (env : TimeEnv) (h : Health) (tr : TransportHealthStat)
    (db : DatabaseHealthStat) (sec : SecurityStackHealthStat)
    (htr : tr.WellTyped) (hdb : db.WellTyped) :
    (∃ d, TransportHealthDetail env (some h) (some tr) = .ok d ∧
      (d.Status = FAILED → d.Error = tr.Error.getD "") ∧
      (d.Status = CONNECTING → d.Error =
        "TotalTx Err In One Interval Is " ++ toString tr.TotalTxErrInOneInterval.Value ++
          ", TotalRx Err In One Interval Is " ++
          toString tr.TotalRxErrInOneInterval.Value ++ " ") ∧
      (d.Status = CONNECTED → d.Error = "")) ∧
    (∃ d, DatabaseHealthDetail env (some h) (some db) = .ok d ∧
      (d.Status = FAILED → d.Error = db.Error.getD "") ∧
      (d.Status = CONNECTING → d.Error =
        "Total Unsuccessful Read Operation Is " ++ toString db.TotalUnsuccessfulReadOp ++
          ", Total Unsuccessful Write Operation Is " ++
          toString db.TotalUnsuccessfulWriteOp ++ " ") ∧
      (d.Status = CONNECTED → d.Error = "")) ∧
    (∃ d, SecurityStackHealthDetail env (some h) (some sec) = .ok d ∧
      (d.Status = FAILED → d.Error = sec.Error.getD "") ∧
      (d.Status = CONNECTING → d.Error =
        "Total Unsuccessful Encryption Operation Is " ++
          toString sec.TotalUnsuccessfulEncryption.Value ++
          ", Total Unsuccessful Decryption Operation Is " ++
          toString sec.TotalUnsuccessfulDecryption.Value ++ " ") ∧
      (d.Status = CONNECTED → d.Error = "")) := by
  refine ⟨⟨_, TransportHealthDetail_eq env h tr htr, ?_⟩,
    ⟨_, DatabaseHealthDetail_eq env h db hdb, ?_⟩, ⟨_, rfl, ?_⟩⟩
  · exact error_of_cases _ (transport_connectivity_cases env tr)
  · exact error_of_cases _ (database_connectivity_cases env db)
  · exact error_of_cases _ (security_connectivity_cases env sec)

theorem error_string_by_status_witness :
    intervalErrors.WellTyped ∧ healthyDatabase.WellTyped ∧
    healthyDatabase.Error = some "stale" ∧
    (∃ d, TransportHealthDetail sampleEnv (some boundHealth) (some intervalErrors) = .ok d ∧
      d.Status = CONNECTING ∧
      d.Error = "TotalTx Err In One Interval Is 1, TotalRx Err In One Interval Is 0 ") ∧
    (∃ d, DatabaseHealthDetail sampleEnv (some boundHealth) (some healthyDatabase) = .ok d ∧
      d.Status = CONNECTED ∧ d.Error = "") ∧
    (∃ d, SecurityStackHealthDetail sampleEnv (some boundHealth) (some failedSecurity) =
      .ok d ∧ d.Status = FAILED ∧ d.Error = "connection refused") := by
  obtain ⟨⟨t, ht, -, htc, -⟩, ⟨d, hd, -, -, hdc⟩, ⟨e, he, hef, -, -⟩⟩ :=
    error_string_by_status sampleEnv boundHealth intervalErrors healthyDatabase failedSecurity
      (by decide) (by decide)
  have hts : t.Status = CONNECTING := by
    rw [TransportHealthDetail_eq _ _ _ (by decide)] at ht
    cases ht
    rfl
  have hds : d.Status = CONNECTED := by
    rw [DatabaseHealthDetail_eq _ _ _ (by decide)] at hd
    cases hd
    rfl
  have hes : e.Status = FAILED := by
    cases he
    rfl
  refine ⟨by decide, by decide, rfl, ⟨t, ht, hts, ?_⟩, ⟨d, hd, hds, hdc hds⟩,
    ⟨e, he, hes, hef hes⟩⟩
  rw [htc hts]
  decide

/-! ## The process probe and the complete status -/

theorem foldl_append_singleton {α β : Type} (f : α → β) (l : List α) (init : List β) :
    List.foldl (fun acc a => acc ++ [f a]) init l = init ++ l.map f := by
  induction l generalizing init with
  | nil => simp
  | cons a rest ih => simp [List.foldl_cons, ih]

theorem offenderVerdict_cases (s : PeripheralStatusType) :
    offenderVerdict s = ServiceHealthStatus_HEALTH_YELLOW ∨
      offenderVerdict s = ServiceHealthStatus_HEALTH_RED := by
  unfold offenderVerdict
  split
  · exact Or.inl rfl
  · exact Or.inr rfl

theorem walkVerdict_without_process (ds : DetailedStatusSummary) (hp : ds.ProcessStatus = none) :
    walkVerdict ds = ServiceHealthStatus_HEALTH_RED ∨
      walkVerdict ds = ServiceHealthStatus_HEALTH_YELLOW := by
  unfold walkVerdict
  cases firstOffender (entryStatuses ds) with
  | none =>
    rw [hp]
    exact Or.inl rfl
  | some s => exact (offenderVerdict_cases s).symm

/-- C15: the code on a nil Health context. `CompleteSrvsStatus` reaches
`hCtx.ProcessDetail()`, whose first statement reads `hCtx.processCtx`, before
any nil check: for every component composition (nil included) the call ends in
a nil-pointer panic instead of returning an error; e.g. for the empty
composition. -/
theorem complete_status_nil_context_panics (env : TimeEnv) (rt : RuntimeEnv)
    (srvsComponent : Option SrvsComponentComposition) :
    CompleteSrvsStatus env rt none srvsComponent = .panic ∧
    Health.ProcessDetail env rt none = .panic ∧
    CompleteSrvsStatus sampleEnv sampleRuntime none (some {}) = .panic ∧
    ¬ ∃ msg, CompleteSrvsStatus sampleEnv sampleRuntime none (some {}) = .err msg := by
  refine ⟨?_, rfl, rfl, ?_⟩
  · cases srvsComponent with
    | none => rfl
    | some c => rfl
  · rintro ⟨msg, hmsg⟩
    have hp : CompleteSrvsStatus sampleEnv sampleRuntime none (some {}) = .panic := rfl
    rw [hp] at hmsg
    cases hmsg

theorem foldl_append_each {α : Type} (l init : List α) :
    List.foldl (fun acc a => acc ++ [a]) init l = init ++ l := by
  induction l generalizing init with
  | nil => simp
  | cons a rest ih => simp [List.foldl_cons, ih]

theorem completeWithBrief_eq (h : Health) (st : MtsrvStatus) (ds : DetailedStatusSummary) :
    completeWithBrief (some h) st ds = .ok ⟨some ⟨h.name, walkVerdict ds⟩, some ds⟩ := by
  unfold completeWithBrief
  simp only []
  rw [BriefSrvsStatus_eq]

theorem CompleteSrvsStatus_eq (env : TimeEnv) (rt : RuntimeEnv) (h : Health)
    (comp : SrvsComponentComposition) :
    CompleteSrvsStatus env rt (some h) (some comp) =
      .ok ⟨some ⟨h.name, walkVerdict
          { ConnectedPeripheral := some ⟨comp.Databases, comp.Transports⟩
            ProcessStatus := h.processCtx.map (probeProcess env rt h)
            Security := comp.SecurityStack
            WebHooks := none }⟩,
        some
          { ConnectedPeripheral := some ⟨comp.Databases, comp.Transports⟩
            ProcessStatus := h.processCtx.map (probeProcess env rt h)
            Security := comp.SecurityStack
            WebHooks := none }⟩ := by
  obtain ⟨dbs, trs, secs, wh⟩ := comp
  obtain ⟨name, t, pc⟩ := h
  unfold CompleteSrvsStatus Health.ProcessDetail
  cases pc <;> cases dbs <;> cases trs <;> cases secs <;>
    simp [completeWithBrief_eq, foldl_append_each]

/-- C16: for every Health context without a bound process handle,
`ProcessDetail` returns an error and no detail (it does not panic), and
`CompleteSrvsStatus` on that context succeeds for every non-nil component
composition, with a DetailedStatus whose ProcessStatus is absent and a brief
verdict that is RED or YELLOW, never GREEN. -/
theorem unbound_context_never_green (env : TimeEnv) (rt : RuntimeEnv) (h : Health)
    (comp : SrvsComponentComposition) (hunbound : h.processCtx = none) :
    Health.ProcessDetail env rt (some h) = .err "Process context is nil" ∧
    ∃ ds b, CompleteSrvsStatus env rt (some h) (some comp) = .ok ⟨some b, some ds⟩ ∧
      ds.ProcessStatus = none ∧
      (b.Status = ServiceHealthStatus_HEALTH_RED ∨
        b.Status = ServiceHealthStatus_HEALTH_YELLOW) ∧
      b.Status ≠ ServiceHealthStatus_HEALTH_GREEN := by
  constructor
  · unfold Health.ProcessDetail
    simp only [hunbound]
  · have hnone : (DetailedStatusSummary.mk (some ⟨comp.Databases, comp.Transports⟩)
        (h.processCtx.map (probeProcess env rt h)) comp.SecurityStack none).ProcessStatus =
          none := by
      show h.processCtx.map (probeProcess env rt h) = none
      rw [hunbound]
      rfl
    have hv := walkVerdict_without_process _ hnone
    refine ⟨_, _, CompleteSrvsStatus_eq env rt h comp, hnone, hv, ?_⟩
    show walkVerdict _ ≠ ServiceHealthStatus_HEALTH_GREEN
    rcases hv with hv | hv
    · rw [hv]
      decide
    · rw [hv]
      decide

theorem unbound_context_never_green_witness :
    unboundHealth.processCtx = none ∧
    Health.ProcessDetail sampleEnv sampleRuntime (some unboundHealth) =
      .err "Process context is nil" ∧
    CompleteSrvsStatus sampleEnv sampleRuntime (some unboundHealth)
      (some { Databases := [some { Status := CONNECTED }] }) =
      .ok ⟨some ⟨"", ServiceHealthStatus_HEALTH_RED⟩,
        some { ConnectedPeripheral := some { Databases := [some { Status := CONNECTED }] } }⟩ ∧
    ∃ ds b, CompleteSrvsStatus sampleEnv sampleRuntime (some unboundHealth)
        (some { Databases := [some { Status := CONNECTED }] }) = .ok ⟨some b, some ds⟩ ∧
      ds.ProcessStatus = none ∧ b.Status ≠ ServiceHealthStatus_HEALTH_GREEN := by
  obtain ⟨hpd, ds, b, hc, hp, -, hg⟩ :=
    unbound_context_never_green sampleEnv sampleRuntime unboundHealth
      { Databases := [some { Status := CONNECTED }] } rfl
  exact ⟨rfl, hpd, by decide, ds, b, hc, hp, hg⟩

theorem networkProbe_eq (pCtx : Process) :
    networkProbe pCtx [] = pCtx.NetIOCounters.1.map (fun n => some (networkDetailOf n)) := by
  unfold networkProbe
  rw [foldl_append_singleton (fun n => some (networkDetailOf n))]
  rfl

/-- C17, as stated, fails: on a bound handle whose page-fault query succeeds
(5 minor, 1 major, 2 child minor faults) and whose network query returns one
entry together with an error, the detail carries no page-fault stat at all, and
its network list is not at its zero value but holds that entry. -/
theorem process_probe_counterexample :
    boundHealth.processCtx = some sampleProcess ∧
    sampleProcess.PageFaults =
      .ok { MinorFaults := 5, MajorFaults := 1, ChildMinorFaults := 2 } ∧
    sampleProcess.NetIOCounters.2 = some "parse error" ∧
    ∃ d stats, Health.ProcessDetail sampleEnv sampleRuntime (some boundHealth) = .ok d ∧
      d.Stats = some stats ∧ stats.PageFaultStat = none ∧
      stats.Network = [some { InterfaceName := "eth0", RxBytes := 10, RxPackets := 1 }] ∧
      stats.Network ≠ [] := by
  refine ⟨rfl, rfl, rfl, _, _, rfl, rfl, rfl, by decide, by decide⟩

/-- C17 (amended): for a Health context with a bound process handle and every
combination of success and failure of the OS queries, `ProcessDetail` succeeds;
the state, thread count, I/O counters, CPU percent, CPU times and memory percent
fields equal the value the query returned when it succeeded and are left at
their zero value when it failed; the network list holds, in order, the entries
the network query returned, whether or not it also returned an error (it is
empty when the query returned none). In particular a failing CPU-percentage
query leaves CpuPercent at 0 while a succeeding memory-percentage query fills
MemPercent. -/
theorem process_probe_partial_results (env : TimeEnv) (rt : RuntimeEnv) (h : Health)
    (pCtx : Process) (hbound : h.processCtx = some pCtx) :
    ∃ d stats io cpu mem, Health.ProcessDetail env rt (some h) = .ok d ∧
      d.Stats = some stats ∧ stats.IOCounterStats = some io ∧
      stats.CpuStats = some cpu ∧ stats.MemoryStat = some mem ∧
      (∀ v, pCtx.Status = .ok v → d.State = v) ∧
      (∀ e, pCtx.Status = .err e → d.State = "") ∧
      (∀ v, pCtx.NumThreads = .ok v → d.NumThreads = v) ∧
      (∀ e, pCtx.NumThreads = .err e → d.NumThreads = 0) ∧
      (∀ v, pCtx.IOCounters = .ok v →
        io = ⟨v.ReadCount, v.WriteCount, v.ReadBytes, v.WriteBytes⟩) ∧
      (∀ e, pCtx.IOCounters = .err e → io = ⟨0, 0, 0, 0⟩) ∧
      (∀ v, pCtx.CPUPercent = .ok v → cpu.CpuPercent = v) ∧
      (∀ e, pCtx.CPUPercent = .err e → cpu.CpuPercent = 0) ∧
      (∀ v, pCtx.Times = .ok v → cpu.User = v.User ∧ cpu.System = v.System) ∧
      (∀ e, pCtx.Times = .err e → cpu.User = 0 ∧ cpu.System = 0) ∧
      (∀ v, pCtx.MemoryPercent = .ok v → mem.MemPercent = v) ∧
      (∀ e, pCtx.MemoryPercent = .err e → mem.MemPercent = 0) ∧
      stats.Network = pCtx.NetIOCounters.1.map (fun n => some (networkDetailOf n)) ∧
      (pCtx.NetIOCounters.1 = [] → stats.Network = []) := by
  have hres : Health.ProcessDetail env rt (some h) = .ok (probeProcess env rt h pCtx) := by
    unfold Health.ProcessDetail
    simp only [hbound]
  have hnet : networkProbe pCtx [] =
      pCtx.NetIOCounters.1.map (fun n => some (networkDetailOf n)) := networkProbe_eq pCtx
  refine ⟨_, _, _, _, _, hres, rfl, rfl, rfl, rfl, ?_, ?_, ?_, ?_, ?_, ?_, ?_, ?_, ?_, ?_,
    ?_, ?_, hnet, ?_⟩
  · intro v hv
    unfold probeProcess
    rw [hv]
    cases pCtx.NumThreads <;> rfl
  · intro e he
    unfold probeProcess
    rw [he]
    cases pCtx.NumThreads <;> rfl
  · intro v hv
    unfold probeProcess
    rw [hv]
  · intro e he
    unfold probeProcess
    rw [he]
    cases pCtx.Status <;> rfl
  · intro v hv
    unfold ioCounterProbe
    rw [hv]
  · intro e he
    unfold ioCounterProbe
    rw [he]
  · intro v hv
    unfold cpuProbe
    rw [hv]
    cases pCtx.Times <;> rfl
  · intro e he
    unfold cpuProbe
    rw [he]
    cases pCtx.Times <;> rfl
  · intro v hv
    unfold cpuProbe
    rw [hv]
    cases pCtx.CPUPercent <;> exact ⟨rfl, rfl⟩
  · intro e he
    unfold cpuProbe
    rw [he]
    cases pCtx.CPUPercent <;> exact ⟨rfl, rfl⟩
  · intro v hv
    unfold memoryProbe
    rw [hv]
  · intro e he
    unfold memoryProbe
    rw [he]
  · intro hempty
    rw [hnet, hempty]
    rfl


theorem process_probe_partial_results_witness :
    boundHealth.processCtx = some sampleProcess ∧
    sampleProcess.CPUPercent = .err "no cpu" ∧
    sampleProcess.MemoryPercent = .ok 1078530011 ∧
    ∃ d stats cpu mem,
      Health.ProcessDetail sampleEnv sampleRuntime (some boundHealth) = .ok d ∧
      d.Stats = some stats ∧ stats.CpuStats = some cpu ∧ stats.MemoryStat = some mem ∧
      cpu.CpuPercent = 0 ∧ mem.MemPercent = 1078530011 ∧
      d.State = "R" ∧ d.NumThreads = 0 ∧ cpu.User = 17 := by
  obtain ⟨d, stats, io, cpu, mem, hd, hs, -, hcpu, hmem, hst, -, -, hnt, -, -, -, hcp, htm, -,
      hmp, -, -, -⟩ :=
    process_probe_partial_results sampleEnv sampleRuntime boundHealth sampleProcess rfl
  exact ⟨rfl, rfl, rfl, d, stats, cpu, mem, hd, hs, hcpu, hmem, hcp _ rfl, hmp _ rfl,
    hst _ rfl, hnt _ rfl, (htm _ rfl).1⟩

/-- C18: the code on a bound handle. `ProcessDetail` fills the page-fault detail
`pFault` from the query and never stores it: for every bound context the
returned detail has stats whose PageFaultStat is absent, e.g. when the query
returned 5 minor, 1 major and 2 child minor faults. -/
theorem page_faults_never_stored (env : TimeEnv) (rt : RuntimeEnv) (name : String)
    (startTime : Time) (pCtx : Process) :
    (∃ d stats, Health.ProcessDetail env rt (some ⟨name, startTime, some pCtx⟩) = .ok d ∧
      d.Stats = some stats ∧ stats.PageFaultStat = none) ∧
    sampleProcess.PageFaults =
      .ok { MinorFaults := 5, MajorFaults := 1, ChildMinorFaults := 2 } ∧
    pageFaultProbe sampleProcess =
      { MinorFaults := 5, MajorFaults := 1, ChildMinorFaults := 2 } ∧
    ∃ d stats, Health.ProcessDetail sampleEnv sampleRuntime (some boundHealth) = .ok d ∧
      d.Stats = some stats ∧ stats.PageFaultStat = none :=
  ⟨⟨_, _, rfl, rfl, rfl⟩, rfl, rfl, ⟨_, _, rfl, rfl, rfl⟩⟩

/-! ## The health context -/

theorem scanProcesses_skip (env : TimeEnv) (serviceName : String) (healthCtx : Health)
    (pre rest : List Process)
    (hpre : ∀ q ∈ pre, ∃ n, q.Name = .ok n ∧ n ≠ serviceName) :
    scanProcesses env serviceName healthCtx (pre ++ rest) =
      scanProcesses env serviceName healthCtx rest := by
  induction pre with
  | nil => rfl
  | cons q pre ih =>
    obtain ⟨n, hn, hne⟩ := hpre q (List.mem_cons_self _ _)
    rw [List.cons_append, scanProcesses, hn]
    simp only []
    rw [if_neg (fun heq => hne heq.symm)]
    exact ih (fun r hr => hpre r (List.mem_cons_of_mem _ hr))

/-- C19: when the process enumeration succeeds and every name lookup up to the
first process named serviceName succeeds, `NewHealthSrvs` succeeds with a context
bound to that first process (named serviceName, started now), whatever follows
it; when every lookup succeeds and no process has that name, it succeeds with a
context that has no bound handle. -/
theorem new_health_binds_first_match (env : TimeEnv) (serviceName : String)
    (pre post table : List Process) (p : Process)
    (hpre : ∀ q ∈ pre, ∃ n, q.Name = .ok n ∧ n ≠ serviceName)
    (hp : p.Name = .ok serviceName)
    (htable : ∀ q ∈ table, ∃ n, q.Name = .ok n ∧ n ≠ serviceName) :
    NewHealthSrvs env (.ok (pre ++ p :: post)) serviceName =
      .ok ⟨serviceName, env.now, some p⟩ ∧
    NewHealthSrvs env (.ok table) serviceName = .ok ⟨"", 0, none⟩ := by
  constructor
  · unfold NewHealthSrvs
    simp only []
    rw [scanProcesses_skip env serviceName _ pre _ hpre, scanProcesses, hp]
    exact if_pos rfl
  · unfold NewHealthSrvs
    simp only []
    have h := scanProcesses_skip env serviceName {} table [] htable
    rw [List.append_nil] at h
    rw [h]
    rfl

theorem new_health_binds_first_match_witness :
    processTable =
      [{ Pid := 1, Name := .ok "init" }] ++ { Pid := 7, Name := .ok "svc" } ::
        [{ Pid := 9, Name := .err "gone" }, { Pid := 12, Name := .ok "svc" }] ∧
    NewHealthSrvs sampleEnv (.ok processTable) "svc" =
      .ok ⟨"svc", 1000, some { Pid := 7, Name := .ok "svc" }⟩ ∧
    NewHealthSrvs sampleEnv (.ok [{ Pid := 1, Name := .ok "init" }]) "svc" =
      .ok ⟨"", 0, none⟩ :=
  ⟨rfl,
   (new_health_binds_first_match sampleEnv "svc" [{ Pid := 1, Name := .ok "init" }]
      [{ Pid := 9, Name := .err "gone" }, { Pid := 12, Name := .ok "svc" }]
      [{ Pid := 1, Name := .ok "init" }] { Pid := 7, Name := .ok "svc" }
      (fun q hq => by
        rw [List.mem_singleton] at hq
        subst hq
        exact ⟨"init", rfl, by decide⟩)
      rfl
      (fun q hq => by
        rw [List.mem_singleton] at hq
        subst hq
        exact ⟨"init", rfl, by decide⟩)).1,
   (new_health_binds_first_match sampleEnv "svc" [{ Pid := 1, Name := .ok "init" }]
      [{ Pid := 9, Name := .err "gone" }, { Pid := 12, Name := .ok "svc" }]
      [{ Pid := 1, Name := .ok "init" }] { Pid := 7, Name := .ok "svc" }
      (fun q hq => by
        rw [List.mem_singleton] at hq
        subst hq
        exact ⟨"init", rfl, by decide⟩)
      rfl
      (fun q hq => by
        rw [List.mem_singleton] at hq
        subst hq
        exact ⟨"init", rfl, by decide⟩)).2⟩

/-- C20: `NewHealthSrvs` returns no context and the underlying error when the
process enumeration fails, and also when a name lookup fails for a process that
no process named serviceName precedes, even if a later process has that name:
the call fails, with the error of that lookup when all earlier lookups
succeeded (otherwise with the error of an earlier failed lookup). -/
theorem new_health_fails_on_unreadable_name (env : TimeEnv) (serviceName : String)
    (pre post : List Process) (p : Process) (e pErr : String)
    (hpre : ∀ q ∈ pre, q.Name ≠ .ok serviceName) (hp : p.Name = .err e) :
    NewHealthSrvs env (.err pErr) serviceName = .err pErr ∧
    (∃ e', NewHealthSrvs env (.ok (pre ++ p :: post)) serviceName = .err e') ∧
    ((∀ q ∈ pre, ∃ n, q.Name = .ok n) →
      NewHealthSrvs env (.ok (pre ++ p :: post)) serviceName = .err e) := by
  refine ⟨rfl, ?_, ?_⟩
  · unfold NewHealthSrvs
    simp only []
    induction pre with
    | nil =>
      rw [List.nil_append, scanProcesses, hp]
      exact ⟨e, rfl⟩
    | cons q pre ih =>
      rw [List.cons_append, scanProcesses]
      cases hq : q.Name with
      | err e' => exact ⟨e', rfl⟩
      | ok n =>
        simp only []
        have hne : ¬ serviceName = n := by
          intro heq
          exact hpre q (List.mem_cons_self _ _) (by rw [hq, heq])
        rw [if_neg hne]
        exact ih (fun r hr => hpre r (List.mem_cons_of_mem _ hr))
  · intro hall
    have hskip : ∀ q ∈ pre, ∃ n, q.Name = .ok n ∧ n ≠ serviceName := by
      intro q hq
      obtain ⟨n, hn⟩ := hall q hq
      refine ⟨n, hn, ?_⟩
      intro heq
      exact hpre q hq (by rw [hn, heq])
    unfold NewHealthSrvs
    simp only []
    rw [scanProcesses_skip env serviceName _ pre _ hskip, scanProcesses, hp]

theorem new_health_fails_on_unreadable_name_witness :
    unreadableFirst =
      [{ Pid := 1, Name := .ok "init" }] ++ { Pid := 9, Name := .err "gone" } ::
        [{ Pid := 12, Name := .ok "svc" }] ∧
    NewHealthSrvs sampleEnv (.err "no process table") "svc" = .err "no process table" ∧
    NewHealthSrvs sampleEnv (.ok unreadableFirst) "svc" = .err "gone" :=
  ⟨rfl,
   (new_health_fails_on_unreadable_name sampleEnv "svc" [{ Pid := 1, Name := .ok "init" }]
      [{ Pid := 12, Name := .ok "svc" }] { Pid := 9, Name := .err "gone" } "gone"
      "no process table" (by decide) rfl).1,
   (new_health_fails_on_unreadable_name sampleEnv "svc" [{ Pid := 1, Name := .ok "init" }]
      [{ Pid := 12, Name := .ok "svc" }] { Pid := 9, Name := .err "gone" } "gone"
      "no process table" (by decide) rfl).2.2
      (fun q hq => by
        rw [List.mem_singleton] at hq
        subst hq
        exact ⟨"init", rfl⟩)⟩


/-! ## The metric registry -/

theorem goMapLoad_store_same (m : MetricMap) (n : String) (met : MtMetric) :
    goMapLoad (goMapStore m n met) n = some met := by
  induction m with
  | nil => simp [goMapStore, goMapLoad]
  | cons e rest ih =>
    obtain ⟨k, v⟩ := e
    by_cases hk : k = n
    · simp [goMapStore, goMapLoad, hk]
    · simp [goMapStore, goMapLoad, hk, ih]

theorem goMapLoad_store_other (m : MetricMap) (n k : String) (met : MtMetric) (hne : k ≠ n) :
    goMapLoad (goMapStore m n met) k = goMapLoad m k := by
  induction m with
  | nil =>
    have hne' : ¬ n = k := fun h => hne h.symm
    simp [goMapStore, goMapLoad, hne']
  | cons e rest ih =>
    obtain ⟨k', v⟩ := e
    by_cases hk : k' = n
    · have hk'' : ¬ n = k := fun h => hne h.symm
      simp [goMapStore, goMapLoad, hk, hk'']
    · by_cases hkk : k' = k
      · subst hkk
        simp [goMapStore, goMapLoad, hne]
      · simp [goMapStore, goMapLoad, hk, hkk, ih]

theorem goMapLoad_delete_same (m : MetricMap) (n : String) :
    goMapLoad (goMapDelete m n) n = none := by
  induction m with
  | nil => rfl
  | cons e rest ih =>
    obtain ⟨k, v⟩ := e
    by_cases hk : k = n
    · simp [goMapDelete, hk, ih]
    · simp [goMapDelete, goMapLoad, hk, ih]

theorem goMapLoad_delete_other (m : MetricMap) (n k : String) (hne : k ≠ n) :
    goMapLoad (goMapDelete m n) k = goMapLoad m k := by
  induction m with
  | nil => rfl
  | cons e rest ih =>
    obtain ⟨k', v⟩ := e
    by_cases hk : k' = n
    · have hk'' : ¬ n = k := fun h => hne h.symm
      simp [goMapDelete, goMapLoad, hk, hk'', ih]
    · by_cases hkk : k' = k
      · subst hkk
        simp [goMapDelete, goMapLoad, hne]
      · simp [goMapDelete, goMapLoad, hk, hkk, ih]

theorem goMapDelete_absent (m : MetricMap) (n : String) (habs : goMapLoad m n = none) :
    goMapDelete m n = m := by
  induction m with
  | nil => rfl
  | cons e rest ih =>
    obtain ⟨k, v⟩ := e
    by_cases hk : k = n
    · simp [goMapLoad, hk] at habs
    · simp only [goMapLoad, hk, if_false] at habs
      simp [goMapDelete, hk, ih habs]

theorem goMapLoad_of_not_key (m : MetricMap) (n : String) (hn : n ∉ mapKeys m) :
    goMapLoad m n = none := by
  induction m with
  | nil => rfl
  | cons e rest ih =>
    obtain ⟨k, v⟩ := e
    simp only [mapKeys, List.map_cons, List.mem_cons, not_or] at hn
    have hk : ¬ k = n := fun h => hn.1 h.symm
    simp only [goMapLoad, hk, if_false]
    exact ih hn.2

theorem mapKeys_store (m : MetricMap) (n : String) (met : MtMetric) :
    mapKeys (goMapStore m n met) = if n ∈ mapKeys m then mapKeys m else mapKeys m ++ [n] := by
  induction m with
  | nil => simp [goMapStore, mapKeys]
  | cons e rest ih =>
    obtain ⟨k, v⟩ := e
    by_cases hk : k = n
    · subst hk
      simp [goMapStore, mapKeys]
    · have hk' : ¬ n = k := fun h => hk h.symm
      unfold mapKeys at ih ⊢
      simp only [goMapStore, hk, if_false, List.map_cons, List.mem_cons, hk', false_or, ih]
      split <;> simp

theorem mapKeys_store_nodup (m : MetricMap) (n : String) (met : MtMetric)
    (hm : (mapKeys m).Nodup) : (mapKeys (goMapStore m n met)).Nodup := by
  rw [mapKeys_store]
  split
  · exact hm
  · rename_i hn
    rw [List.nodup_append]
    refine ⟨hm, List.nodup_singleton n, ?_⟩
    intro a ha hb
    rw [List.mem_singleton] at hb
    subst hb
    exact hn ha

theorem mapKeys_delete (m : MetricMap) (n : String) :
    mapKeys (goMapDelete m n) = (mapKeys m).filter (fun k => decide (k ≠ n)) := by
  induction m with
  | nil => rfl
  | cons e rest ih =>
    obtain ⟨k, v⟩ := e
    unfold mapKeys at ih ⊢
    by_cases hk : k = n
    · simp [goMapDelete, hk, ih]
    · simp [goMapDelete, hk, ih]

theorem mapKeys_delete_nodup (m : MetricMap) (n : String) (hm : (mapKeys m).Nodup) :
    (mapKeys (goMapDelete m n)).Nodup := by
  rw [mapKeys_delete]
  exact hm.filter _

/-- C21: `NewServer` gives an empty registry. On a registry, `RegisterMetric(n, m)`
returns normally and afterwards the registry maps n to m, whatever was
registered under n before, with every other name's entry unchanged;
`UnregisterMetric(n)` leaves n absent and every other name's entry unchanged;
unregistering a name that is not registered changes nothing. -/
theorem registry_frame (s : Server) (m : MetricMap) (n : String) (met : MtMetric)
    (hs : s.metList = some m) :
    NewServer.metList = some [] ∧
    (∃ m', RegisterMetric s n met = .ok { metList := some m' } ∧
      goMapLoad m' n = some met ∧ ∀ k, k ≠ n → goMapLoad m' k = goMapLoad m k) ∧
    (∃ m', UnregisterMetric s n = { metList := some m' } ∧
      goMapLoad m' n = none ∧ ∀ k, k ≠ n → goMapLoad m' k = goMapLoad m k) ∧
    (goMapLoad m n = none → UnregisterMetric s n = s) := by
  obtain ⟨ml⟩ := s
  simp only at hs
  subst hs
  refine ⟨rfl, ⟨goMapStore m n met, rfl, goMapLoad_store_same m n met,
    fun k hk => goMapLoad_store_other m n k met hk⟩,
    ⟨goMapDelete m n, rfl, goMapLoad_delete_same m n,
      fun k hk => goMapLoad_delete_other m n k hk⟩, ?_⟩
  intro habs
  unfold UnregisterMetric
  simp only [goMapDelete_absent m n habs]

theorem registry_frame_witness :
    RegisterMetric sampleRegistry "broken" lateMetric =
      .ok { metList := some [("requests", goodMetric), ("broken", lateMetric),
        ("latency", lateMetric)] } ∧
    UnregisterMetric sampleRegistry "broken" =
      { metList := some [("requests", goodMetric), ("latency", lateMetric)] } ∧
    UnregisterMetric sampleRegistry "absent" = sampleRegistry ∧
    ∃ m', RegisterMetric sampleRegistry "fresh" brokenMetric = .ok { metList := some m' } ∧
      goMapLoad m' "fresh" = some brokenMetric ∧ goMapLoad m' "broken" = some brokenMetric := by
  obtain ⟨-, ⟨m', hreg, hsame, hother⟩, -, hnone⟩ :=
    registry_frame sampleRegistry _ "fresh" brokenMetric rfl
  refine ⟨by decide, by decide, ?_, m', hreg, hsame, ?_⟩
  · exact (registry_frame sampleRegistry _ "absent" brokenMetric rfl).2.2.2 (by decide)
  · rw [hother "broken" (by decide)]
    decide

theorem marshalCalls_append (name : String) (l₁ l₂ : List Call) :
    marshalCalls name (l₁ ++ l₂) = marshalCalls name l₁ ++ marshalCalls name l₂ := by
  induction l₁ with
  | nil => rfl
  | cons c rest ih =>
    cases c with
    | MetricMarshal k met =>
      by_cases hk : k = name
      · simp [marshalCalls, hk, ih]
      · simp [marshalCalls, hk, ih]
    | ServerLock => simpa [marshalCalls] using ih
    | ServerUnlock => simpa [marshalCalls] using ih
    | MetricLock k met => simpa [marshalCalls] using ih
    | MetricUnlock k met => simpa [marshalCalls] using ih

theorem marshalCalls_sweep (m : MetricMap) (name : String) (hkeys : (mapKeys m).Nodup) :
    marshalCalls name (sweepMetrics m) = (goMapLoad m name).toList := by
  induction m with
  | nil => rfl
  | cons e rest ih =>
    obtain ⟨k, v⟩ := e
    have hk := List.nodup_cons.1 hkeys
    by_cases hkn : k = name
    · subst hkn
      have hrest : goMapLoad rest k = none := goMapLoad_of_not_key rest k hk.1
      have hih := ih hk.2
      rw [hrest] at hih
      simp [sweepMetrics, marshalCalls, goMapLoad, hih]
    · simp [sweepMetrics, marshalCalls, goMapLoad, hkn, ih hk.2]

theorem statusUpdate_calls (s : Server) (m : MetricMap) (hs : s.metList = some m) :
    (statusUpdate s).calls =
      [Call.ServerLock] ++ m.map (fun e => Call.MetricMarshal e.1 e.2) ++ [Call.ServerUnlock] := by
  have hsweep : ∀ l : MetricMap, sweepMetrics l = l.map (fun e => Call.MetricMarshal e.1 e.2) := by
    intro l
    induction l with
    | nil => rfl
    | cons e rest ih =>
      obtain ⟨k, v⟩ := e
      simp [sweepMetrics, ih]
  unfold statusUpdate
  simp only [hs, hsweep]

/-- C22: for every registry content (names distinct, any iteration order) one run
of `statusUpdate` invokes `Marshal` exactly once under every registered name, on
the metric registered there, whether that `Marshal` fails or not and whatever
failed before it, invokes it under no other name, returns 1 and leaves the
registry as it was. -/
theorem flush_sweeps_every_metric (s : Server) (m : MetricMap) (hs : s.metList = some m)
    (hkeys : (mapKeys m).Nodup) :
    (statusUpdate s).result = 1 ∧
    (statusUpdate s).server = s ∧
    (∀ name met, goMapLoad m name = some met →
      marshalCalls name (statusUpdate s).calls = [met]) ∧
    (∀ name, goMapLoad m name = none → marshalCalls name (statusUpdate s).calls = []) ∧
    (statusUpdate s).calls =
      [Call.ServerLock] ++ m.map (fun e => Call.MetricMarshal e.1 e.2) ++
        [Call.ServerUnlock] := by
  have hcalls : ∀ name, marshalCalls name (statusUpdate s).calls = (goMapLoad m name).toList := by
    intro name
    unfold statusUpdate
    simp only [hs, marshalCalls_append, marshalCalls_sweep m name hkeys]
    simp [marshalCalls]
  refine ⟨rfl, rfl, ?_, ?_, statusUpdate_calls s m hs⟩
  · intro name met hload
    rw [hcalls, hload]
    rfl
  · intro name hload
    rw [hcalls, hload]
    rfl

theorem flush_sweeps_every_metric_witness :
    (mapKeys [("requests", goodMetric), ("broken", brokenMetric),
      ("latency", lateMetric)]).Nodup ∧
    brokenMetric.Marshal = .err "marshal failed" ∧
    (statusUpdate sampleRegistry).result = 1 ∧
    (statusUpdate sampleRegistry).server = sampleRegistry ∧
    marshalCalls "requests" (statusUpdate sampleRegistry).calls = [goodMetric] ∧
    marshalCalls "broken" (statusUpdate sampleRegistry).calls = [brokenMetric] ∧
    marshalCalls "latency" (statusUpdate sampleRegistry).calls = [lateMetric] ∧
    marshalCalls "absent" (statusUpdate sampleRegistry).calls = [] := by
  obtain ⟨hres, hsrv, hreg, habs, -⟩ :=
    flush_sweeps_every_metric sampleRegistry _ rfl (by decide)
  exact ⟨by decide, rfl, hres, hsrv, hreg "requests" goodMetric (by decide),
    hreg "broken" brokenMetric (by decide), hreg "latency" lateMetric (by decide),
    habs "absent" (by decide)⟩

/-- C29: the code during a flush. `statusUpdate` locks and unlocks the server's own
mutex and calls `Marshal` on the registered metrics; it never calls a metric's
`Lock()` or `Unlock()`: for every server no such call is among the calls of a
run, e.g. on a registry with three metrics, where `Marshal` is invoked three
times on metrics the server has not locked. -/
theorem flush_never_locks_metrics (s : Server) (name : String) (met : MtMetric) :
    Call.MetricLock name met ∉ (statusUpdate s).calls ∧
    Call.MetricUnlock name met ∉ (statusUpdate s).calls ∧
    (statusUpdate sampleRegistry).calls =
      [Call.ServerLock, Call.MetricMarshal "requests" goodMetric,
        Call.MetricMarshal "broken" brokenMetric, Call.MetricMarshal "latency" lateMetric,
        Call.ServerUnlock] := by
  have hsweep : ∀ l : MetricMap, Call.MetricLock name met ∉ sweepMetrics l ∧
      Call.MetricUnlock name met ∉ sweepMetrics l := by
    intro l
    induction l with
    | nil => exact ⟨List.not_mem_nil _, List.not_mem_nil _⟩
    | cons e rest ih =>
      obtain ⟨k, v⟩ := e
      simp [sweepMetrics, ih.1, ih.2]
  refine ⟨?_, ?_, by decide⟩
  · unfold statusUpdate
    cases s.metList with
    | none => simp
    | some m => simp [(hsweep m).1]
  · unfold statusUpdate
    cases s.metList with
    | none => simp
    | some m => simp [(hsweep m).2]

/-! ## Counter labels and JSON -/

/-- C23: marshalling a Zcounter yields an object with the member "X" holding the
value as a decimal number, preceded by the member "Label" exactly when the
label is non-empty: an empty label and value v give `{"X":v}`, and a label l
that the encoder writes unescaped between quotes gives `{"Label":"l","X":v}`. -/
theorem counter_json (quote : String → String) (zc : Zcounter) :
    (zc.label = "" →
      zc.MarshalJSON quote = .ok ("\x7b\"X\":" ++ toString zc.x ++ "\x7d")) ∧
    (zc.label ≠ "" → quote zc.label = "\"" ++ zc.label ++ "\"" →
      zc.MarshalJSON quote =
        .ok ("\x7b\"Label\":\"" ++ zc.label ++ "\",\"X\":" ++ toString zc.x ++ "\x7d")) := by
  constructor
  · intro hl
    unfold Zcounter.MarshalJSON jsonMarshalZcounterJson
    simp only [hl, if_true]
    congr 1
  · intro hl hq
    unfold Zcounter.MarshalJSON jsonMarshalZcounterJson
    simp only [hl, if_false, hq]
    congr 1
    apply String.ext
    simp [String.data_append]

theorem counter_json_witness :
    ({ label := "", x := 224 } : Zcounter).MarshalJSON plainQuote = .ok "\x7b\"X\":224\x7d" ∧
    ({ label := "ctr1", x := 224 } : Zcounter).MarshalJSON plainQuote =
      .ok "\x7b\"Label\":\"ctr1\",\"X\":224\x7d" := by
  have h₁ := (counter_json plainQuote { label := "", x := 224 }).1 rfl
  have h₂ := (counter_json plainQuote { label := "ctr1", x := 224 }).2 (by decide) rfl
  refine ⟨?_, ?_⟩
  · rw [h₁]
    decide
  · rw [h₂]
    decide

theorem call_keeps_label (op : CounterOp) (zc : Zcounter) : (op.call zc).label = zc.label := by
  cases op <;> rfl

theorem runCalls_label (calls : List CounterCall) (zc : Zcounter) :
    (runCalls zc calls).label = lastLabel zc.label calls := by
  induction calls generalizing zc with
  | nil => rfl
  | cons c rest ih =>
    cases c with
    | value op =>
      rw [runCalls, ih, lastLabel]
      exact congrArg (fun l => lastLabel l rest) (call_keeps_label op zc)
    | label l =>
      rw [runCalls, ih, lastLabel]
      rfl

theorem runCalls_x (calls : List CounterCall) (zc : Zcounter) :
    (runCalls zc calls).x = List.foldl specStep zc.x (valueOps calls) := by
  induction calls generalizing zc with
  | nil => rfl
  | cons c rest ih =>
    cases c with
    | value op =>
      rw [runCalls, ih, valueOps, List.foldl_cons]
      cases op <;> rfl
    | label l =>
      rw [runCalls, ih, valueOps]
      rfl

/-- C24: in sequential use `Name()` returns the argument of the most recent
`Label(l)` call (the empty string on a fresh counter without one), whatever
value operations were interleaved; `Value()` is what the value operations alone
produce; `Label` leaves `Value()` unchanged and every value operation leaves the
label unchanged. -/
theorem label_and_value_independent (calls : List CounterCall) (zc : Zcounter) (l : String)
    (op : CounterOp) :
    (runCalls {} calls).Name = lastLabel "" calls ∧
    (runCalls zc calls).Name = lastLabel zc.Name calls ∧
    (runCalls zc calls).Value = (runOps zc (valueOps calls)).Value ∧
    (zc.Label l).Value = zc.Value ∧
    (zc.Label l).Name = l ∧
    (op.call zc).Name = zc.Name ∧
    (runCalls {} [.label "ctr1", .value (.set 222), .label "ctr2", .value (.add 2)]).Name =
      "ctr2" ∧
    (runCalls {} [.label "ctr1", .value (.set 222), .label "ctr2", .value (.add 2)]).Value =
      224 := by
  refine ⟨runCalls_label calls {}, runCalls_label calls zc, ?_, rfl, rfl,
    call_keeps_label op zc, by decide, by decide⟩
  show (runCalls zc calls).x = (runOps zc (valueOps calls)).Value
  rw [runCalls_x, runOps_value]

/-! ## The worker pool -/

theorem startHandlers_eq (k : Nat) (st : DronaStart) :
    startHandlers k st =
      { ctx := { st.ctx with wg := st.ctx.wg + k }, workers := st.workers + k } := by
  induction k generalizing st with
  | zero => rfl
  | succ k ih =>
    rw [startHandlers, ih]
    simp only [Nat.add_assoc, Nat.add_comm 1 k]

theorem makeChan_in_range (plat : GoPlatform) (n : Int) (h0 : 0 ≤ n)
    (hr : ptrSize * n ≤ (plat.maxAlloc : Int) - hchanSize) :
    makeChan plat n = some n.toNat := by
  have hle : (plat.maxAlloc : Int) ≤ 2 ^ 48 := by exact_mod_cast plat.maxAlloc_le
  have hr' : 8 * n ≤ (plat.maxAlloc : Int) - 96 := hr
  have hu : toUintptr n = n := by
    unfold toUintptr
    exact if_neg (by omega)
  have hm : 8 * n % 2 ^ 64 = 8 * n := Int.emod_eq_of_lt (by omega) (by omega)
  unfold makeChan
  simp only [hu, ptrSize, hchanSize, hm]
  rw [if_neg]
  omega

theorem makeChan_out_of_range (plat : GoPlatform) (n : Int) (hn : IsI64 n)
    (hout : n < 0 ∨ (plat.maxAlloc : Int) - hchanSize < ptrSize * n) :
    makeChan plat n = none := by
  obtain ⟨hlo, hhi⟩ := hn
  unfold makeChan
  simp only [ptrSize, hchanSize] at hout ⊢
  rw [if_pos]
  rcases hout with hneg | hbig
  · exact Or.inr (Or.inr hneg)
  · by_cases hneg : n < 0
    · exact Or.inr (Or.inr hneg)
    · have hu : toUintptr n = n := by
        unfold toUintptr
        exact if_neg hneg
      rw [hu]
      by_cases hov : (2 : Int) ^ 64 ≤ 8 * n
      · exact Or.inl hov
      · have hm : 8 * n % 2 ^ 64 = 8 * n :=
          Int.emod_eq_of_lt (by omega) (by omega)
        rw [hm]
        exact Or.inr (Or.inl hbig)

theorem NewDronaCtx_of_chan (plat : GoPlatform) (name : String) (n : Int) (hne : n ≠ 0) :
    NewDronaCtx plat name n =
      match makeChan plat n with
      | none => .panic
      | some c =>
        .ok { ctx := { reqChan := c, respChan := c, noHandlers := n, wg := n.toNat,
                       quitChan := 0 },
              workers := n.toNat } := by
  unfold NewDronaCtx
  simp only [hne, if_false]
  cases makeChan plat n with
  | none => rfl
  | some c =>
    simp only []
    rw [startHandlers_eq]
    simp

/-- C25, as stated, fails: for n = 2^62, a positive Go `int`, `make` of the request
queue panics ("makechan: size out of range") on every 64-bit platform, so
`NewDronaCtx` returns no pool. -/
theorem pool_size_out_of_range_counterexample :
    IsI64 (2 ^ 62) ∧ (0 : Int) < 2 ^ 62 ∧
    NewDronaCtx linuxAmd64 "drona" (2 ^ 62) = .panic ∧
    (¬ ∃ d, NewDronaCtx linuxAmd64 "drona" (2 ^ 62) = .ok d) ∧
    ∀ plat : GoPlatform, NewDronaCtx plat "drona" (2 ^ 62) = .panic := by
  have hall : ∀ plat : GoPlatform, NewDronaCtx plat "drona" (2 ^ 62) = .panic := by
    intro plat
    have hle : (plat.maxAlloc : Int) ≤ 2 ^ 48 := by exact_mod_cast plat.maxAlloc_le
    rw [NewDronaCtx_of_chan plat "drona" (2 ^ 62) (by norm_num),
      makeChan_out_of_range plat (2 ^ 62) (by unfold IsI64; norm_num)
        (Or.inr (by norm_num; omega))]
  refine ⟨by unfold IsI64; norm_num, by norm_num, hall linuxAmd64, ?_, hall⟩
  rintro ⟨d, hd⟩
  rw [hall linuxAmd64] at hd
  cases hd

/-- C25 (amended): `NewDronaCtx(name, n)` returns a pool and no error whose number
of handlers is 11 when n = 0, and n when n > 0 and n pointers fit the run-time's
bound on a channel buffer (8 n ≤ maxAlloc - 96 on a 64-bit platform); the
request queue and the response queue have that capacity, and that many workers
are started, each registered with the wait-group. For a larger n, and for a
negative one, `make` panics and no pool is returned. -/
theorem pool_construction (plat : GoPlatform) (name : String) (n : Int) (hn : IsI64 n) :
    (n = 0 →
      NewDronaCtx plat name n =
        .ok { ctx := { reqChan := 11, respChan := 11, noHandlers := 11, wg := 11,
                       quitChan := 0 },
              workers := 11 }) ∧
    (0 < n → ptrSize * n ≤ (plat.maxAlloc : Int) - hchanSize →
      NewDronaCtx plat name n =
        .ok { ctx := { reqChan := n.toNat, respChan := n.toNat, noHandlers := n,
                       wg := n.toNat, quitChan := 0 },
              workers := n.toNat } ∧
      ((n.toNat : Nat) : Int) = n) ∧
    (0 < n → (plat.maxAlloc : Int) - hchanSize < ptrSize * n →
      NewDronaCtx plat name n = .panic) ∧
    (n < 0 → NewDronaCtx plat name n = .panic) := by
  have hge : (2 : Int) ^ 33 ≤ (plat.maxAlloc : Int) := by exact_mod_cast plat.maxAlloc_ge
  refine ⟨?_, ?_, ?_, ?_⟩
  · intro h0
    subst h0
    have hc : makeChan plat 11 = some 11 :=
      makeChan_in_range plat 11 (by norm_num) (by norm_num; omega)
    unfold NewDronaCtx
    simp only [if_true, hc]
    rfl
  · intro hpos hfit
    refine ⟨?_, Int.toNat_of_nonneg (by omega)⟩
    rw [NewDronaCtx_of_chan plat name n (by omega),
      makeChan_in_range plat n (by omega) hfit]
  · intro hpos hbig
    rw [NewDronaCtx_of_chan plat name n (by omega),
      makeChan_out_of_range plat n hn (Or.inr hbig)]
  · intro hneg
    rw [NewDronaCtx_of_chan plat name n (by omega),
      makeChan_out_of_range plat n hn (Or.inl hneg)]

theorem pool_construction_witness :
    IsI64 0 ∧ IsI64 3 ∧ IsI64 (2 ^ 45) ∧
    NewDronaCtx linuxAmd64 "drona" 0 =
      .ok { ctx := { reqChan := 11, respChan := 11, noHandlers := 11, wg := 11, quitChan := 0 },
            workers := 11 } ∧
    NewDronaCtx linuxAmd64 "drona" 3 =
      .ok { ctx := { reqChan := 3, respChan := 3, noHandlers := 3, wg := 3, quitChan := 0 },
            workers := 3 } ∧
    NewDronaCtx linuxAmd64 "drona" (2 ^ 45) = .panic ∧
    NewDronaCtx linuxAmd64 "drona" (-1) = .panic :=
  ⟨by decide, by decide, by decide,
   (pool_construction linuxAmd64 "drona" 0 (by decide)).1 rfl,
   ((pool_construction linuxAmd64 "drona" 3 (by decide)).2.1 (by decide) (by decide)).1,
   (pool_construction linuxAmd64 "drona" (2 ^ 45) (by decide)).2.2.1 (by decide) (by decide),
   (pool_construction linuxAmd64 "drona" (-1) (by decide)).2.2.2 (by decide)⟩

/-! ## The complete status and the service name -/

/-- C27: for every non-nil component composition on which `CompleteSrvsStatus`
succeeds, the returned DetailedStatus lists the input's entries in the input's
order (databases, transports, security stack), and the returned BriefStatus is
what `BriefSrvsStatus` returns on that DetailedStatus. -/
theorem complete_status_lists_inputs (env : TimeEnv) (rt : RuntimeEnv) (hCtx : Option Health)
    (comp : SrvsComponentComposition) (st : MtsrvStatus)
    (hok : CompleteSrvsStatus env rt hCtx (some comp) = .ok st) :
    ∃ ds p b, st.DetailedStatus = some ds ∧ ds.ConnectedPeripheral = some p ∧
      p.Databases = comp.Databases ∧ p.Transports = comp.Transports ∧
      ds.Security = comp.SecurityStack ∧ st.BriefStatus = some b ∧
      ∀ bs, BriefSrvsStatus hCtx (some ⟨bs, some ds⟩) = .ok b := by
  cases hCtx with
  | none =>
    have hp : CompleteSrvsStatus env rt none (some comp) = .panic := rfl
    rw [hp] at hok
    cases hok
  | some h =>
    rw [CompleteSrvsStatus_eq] at hok
    cases hok
    exact ⟨_, _, _, rfl, rfl, rfl, rfl, rfl, rfl, fun bs => BriefSrvsStatus_eq h bs _⟩

theorem complete_status_lists_inputs_witness :
    ∃ st ds p b,
      CompleteSrvsStatus sampleEnv sampleRuntime (some boundHealth)
        (some { Databases := [some { Status := CONNECTED }, none]
                Transports := [some { Status := CONNECTING }]
                SecurityStack := [some { Status := FAILED }] }) = .ok st ∧
      st.DetailedStatus = some ds ∧ ds.ConnectedPeripheral = some p ∧
      p.Databases = [some { Status := CONNECTED }, none] ∧
      p.Transports = [some { Status := CONNECTING }] ∧
      ds.Security = [some { Status := FAILED }] ∧
      st.BriefStatus = some b ∧ b = ⟨"svc", ServiceHealthStatus_HEALTH_YELLOW⟩ := by
  have hrun := CompleteSrvsStatus_eq sampleEnv sampleRuntime boundHealth
    { Databases := [some { Status := CONNECTED }, none]
      Transports := [some { Status := CONNECTING }]
      SecurityStack := [some { Status := FAILED }] }
  obtain ⟨ds, p, b, hds, hp, hdb, htr, hsec, hb, hbrief⟩ :=
    complete_status_lists_inputs sampleEnv sampleRuntime (some boundHealth) _ _ hrun
  refine ⟨_, ds, p, b, hrun, hds, hp, hdb, htr, hsec, hb, ?_⟩
  cases hb
  rfl

theorem scanProcesses_ok (env : TimeEnv) (serviceName : String) (healthCtx h : Health)
    (table : List Process) (hok : scanProcesses env serviceName healthCtx table = .ok h) :
    h = healthCtx ∨
      ∃ p, h = { healthCtx with
        processCtx := some p, name := serviceName, startTime := env.now } := by
  induction table with
  | nil =>
    rw [scanProcesses] at hok
    cases hok
    exact Or.inl rfl
  | cons q rest ih =>
    rw [scanProcesses] at hok
    cases hq : q.Name with
    | err e =>
      rw [hq] at hok
      cases hok
    | ok n =>
      rw [hq] at hok
      simp only [] at hok
      by_cases hn : serviceName = n
      · rw [if_pos hn] at hok
        cases hok
        exact Or.inr ⟨q, by rw [hn]⟩
      · rw [if_neg hn] at hok
        exact ih hok

/-- C28, as stated, fails: on a process table without a process named "svc",
`NewHealthSrvs("svc")` succeeds with a context whose name is empty, and the
summary `BriefSrvsStatus` produces on it has an empty ServiceName. -/
theorem unbound_context_name_counterexample :
    NewHealthSrvs sampleEnv (.ok tableWithoutService) "svc" = .ok ⟨"", 0, none⟩ ∧
    BriefSrvsStatus (some ⟨"", 0, none⟩) (some ⟨none, some scenarioB⟩) =
      .ok ⟨"", ServiceHealthStatus_HEALTH_GREEN⟩ ∧
    ("" : String) ≠ "svc" := by
  refine ⟨by decide, by decide, by decide⟩

/-- C28 (amended): for every successful `NewHealthSrvs(serviceName)` that bound a
process, the context carries serviceName as its service name, so that every
BriefStatusSummary produced by `BriefSrvsStatus` on that context has
ServiceName = serviceName; when no process matched, the context's service name
is empty, and so is the ServiceName of every summary. -/
theorem health_name_when_bound (env : TimeEnv) (table : List Process) (serviceName : String)
    (h : Health) (hok : NewHealthSrvs env (.ok table) serviceName = .ok h) :
    (h.processCtx ≠ none →
      h.name = serviceName ∧
      ∀ ms b, BriefSrvsStatus (some h) ms = .ok b → b.ServiceName = serviceName) ∧
    (h.processCtx = none →
      h.name = "" ∧ ∀ ms b, BriefSrvsStatus (some h) ms = .ok b → b.ServiceName = "") := by
  have hname : ∀ ms b, BriefSrvsStatus (some h) ms = .ok b → b.ServiceName = h.name := by
    intro ms b hb
    cases ms with
    | none => cases hb
    | some ms =>
      obtain ⟨bs, dso⟩ := ms
      cases dso with
      | none => cases hb
      | some ds =>
        rw [BriefSrvsStatus_eq] at hb
        cases hb
        rfl
  unfold NewHealthSrvs at hok
  simp only [] at hok
  rcases scanProcesses_ok env serviceName {} h table hok with hh | ⟨p, hh⟩
  · subst hh
    refine ⟨fun hne => absurd rfl hne, fun _ => ⟨rfl, hname⟩⟩
  · subst hh
    refine ⟨fun _ => ⟨rfl, hname⟩, fun hnone => ?_⟩
    cases hnone

theorem health_name_when_bound_witness :
    NewHealthSrvs sampleEnv (.ok processTable) "svc" =
      .ok ⟨"svc", 1000, some { Pid := 7, Name := .ok "svc" }⟩ ∧
    BriefSrvsStatus (some ⟨"svc", 1000, some { Pid := 7, Name := .ok "svc" }⟩)
      (some ⟨none, some scenarioA⟩) = .ok ⟨"svc", ServiceHealthStatus_HEALTH_YELLOW⟩ ∧
    (∀ ms b, BriefSrvsStatus (some ⟨"svc", 1000, some { Pid := 7, Name := .ok "svc" }⟩) ms =
      .ok b → b.ServiceName = "svc") ∧
    (∀ ms b, BriefSrvsStatus (some ⟨"", 0, none⟩) ms = .ok b → b.ServiceName = "") := by
  have hb : NewHealthSrvs sampleEnv (.ok processTable) "svc" =
      .ok ⟨"svc", 1000, some { Pid := 7, Name := .ok "svc" }⟩ := by decide
  have hu : NewHealthSrvs sampleEnv (.ok tableWithoutService) "svc" = .ok ⟨"", 0, none⟩ := by
    decide
  exact ⟨hb, by decide,
    ((health_name_when_bound sampleEnv processTable "svc" _ hb).1 (by decide)).2,
    ((health_name_when_bound sampleEnv tableWithoutService "svc" _ hu).2 rfl).2⟩

/-! ## The transport status and the lifetime counters -/

/-- C30: the status reported by `TransportHealthDetail` is FAILED when IsConnected
is false, CONNECTED when IsConnected is true and both per-interval error
counters are zero, and CONNECTING otherwise; replacing the lifetime counters
TotalTx, TotalRx, TotalTxErr, TotalRxErr and the latency totals by any other
values changes neither the status nor UpTime nor the Error string. -/
theorem transport_status_ignores_lifetime (env : TimeEnv) (h : Health)
    (st : TransportHealthStat) (tx rx txErr rxErr : Zcounter) (sendTime recvTime : Int)
    (hwt : st.WellTyped) (hwt' : (withLifetime st tx rx txErr rxErr sendTime recvTime).WellTyped) :
    ∃ d d', TransportHealthDetail env (some h) (some st) = .ok d ∧
      TransportHealthDetail env (some h)
        (some (withLifetime st tx rx txErr rxErr sendTime recvTime)) = .ok d' ∧
      d.Status =
        (if st.IsConnected = false then FAILED
         else if st.TotalTxErrInOneInterval.Value = 0 ∧ st.TotalRxErrInOneInterval.Value = 0
           then CONNECTED
         else CONNECTING) ∧
      d'.Status = d.Status ∧ d'.UpTime = d.UpTime ∧ d'.Error = d.Error := by
  refine ⟨_, _, TransportHealthDetail_eq env h st hwt,
    TransportHealthDetail_eq env h _ hwt', ?_, rfl, rfl, rfl⟩
  show (transportTotals st (transportConnectivity env st {})).Status = _
  rw [transport_status]
  cases st.IsConnected <;> simp

theorem transport_status_ignores_lifetime_witness :
    lifetimeErrorsOnly.WellTyped ∧
    lifetimeErrorsOnly.TotalTxErr.Value = 5 ∧
    (withLifetime lifetimeErrorsOnly {} {} {} {} 0 0).TotalTxErr.Value = 0 ∧
    ∃ d d', TransportHealthDetail sampleEnv (some boundHealth) (some lifetimeErrorsOnly) =
        .ok d ∧
      TransportHealthDetail sampleEnv (some boundHealth)
        (some (withLifetime lifetimeErrorsOnly {} {} {} {} 0 0)) = .ok d' ∧
      d.Status = CONNECTED ∧ d'.Status = CONNECTED ∧ d'.UpTime = d.UpTime ∧
      d'.Error = d.Error := by
  obtain ⟨d, d', hd, hd', hs, hss, hu, he⟩ :=
    transport_status_ignores_lifetime sampleEnv boundHealth lifetimeErrorsOnly {} {} {} {} 0 0
      (by decide) (by decide)
  have hc : d.Status = CONNECTED := by
    rw [hs]
    decide
  exact ⟨by decide, rfl, rfl, d, d', hd, hd', hc, hss.trans hc, hu, he⟩

end Mtblox
